import Mathlib

/-!
# Verification of `procedural_animation.py` (CollageSplines)

Shallow embedding of the Blender script `src/procedural_animation.py`.
The host scene (curve data blocks, objects, collections, materials) is
modelled as an explicit `Scene` record threaded through every operation;
the shared random source (`mathutils.noise.random`) is an explicit stream
`ℕ → ℚ` consumed at increasing indices; Python float arithmetic is
modelled by exact rational arithmetic; Python exceptions (division by
zero in the growth strategies, attribute errors in keyframe shaping,
name errors in the material builder) are modelled with `Except`/`Option`
results, raised at the same program point as in the source.

The helpers `lerp` and `animate_curve_thickness` of the source are never
called by any code path and are not part of any claim; they are omitted.
-/

set_option autoImplicit false

namespace CollageSplines

/-! ## Colors (`mathutils.Color`)

`mathutils.Color` stores an RGB triple; assigning to its `hsv` property
converts an HSV triple to RGB (Blender's `hsv_to_rgb`). -/

structure Color where
  r : ℚ
  g : ℚ
  b : ℚ
deriving DecidableEq

def clamp01 (x : ℚ) : ℚ := max 0 (min x 1)

/-- Blender's `hsv_to_rgb` (BLI_math_color), in exact rational arithmetic. -/
def hsv_to_rgb (h s v : ℚ) : ℚ × ℚ × ℚ :=
  let nr := clamp01 (|h * 6 - 3| - 1)
  let ng := clamp01 (2 - |h * 6 - 2|)
  let nb := clamp01 (2 - |h * 6 - 4|)
  (((nr - 1) * s + 1) * v, ((ng - 1) * s + 1) * v, ((nb - 1) * s + 1) * v)

/-- `col = mathutils.Color(); col.hsv = (h, s, v)`. -/
def Color.fromHsv (h s v : ℚ) : Color :=
  let rgb := hsv_to_rgb h s v
  ⟨rgb.1, rgb.2.1, rgb.2.2⟩

/-- `color[:] + (1.0,)`: the RGBA quadruple assigned to a shader color input. -/
def Color.rgba (c : Color) : ℚ × ℚ × ℚ × ℚ := (c.r, c.g, c.b, 1)

/-- Python's `int(...)` on a float: truncation toward zero. -/
def pyInt (q : ℚ) : ℤ := if 0 ≤ q then ⌊q⌋ else ⌈q⌉

/-! ## Color palette generator (`generate_5_random_colors_that_fit`) -/

/-- The `for i in range(5)` loop of `generate_5_random_colors_that_fit`:
`remaining` iterations left, `i` the loop index, `k` the position of the
next draw from the random stream, `acc` the accumulated `rand_cols`. -/
def gen5Loop (rng : ℕ → ℚ) (hues : List ℤ) :
    ℕ → ℕ → ℕ → List Color → List Color × ℕ
  | 0, _, k, acc => (acc, k)
  | remaining + 1, i, k, acc =>
      gen5Loop rng hues remaining (i + 1) (k + 2)
        (acc ++ [Color.fromHsv ((hues.getD i 0 : ℚ) / 360) (rng k) (rng (k + 1))])

/-- `generate_5_random_colors_that_fit`, drawing from `rng` starting at
index `k`; returns the colors and the next unused stream index. -/
def generate_5_random_colors_that_fit (rng : ℕ → ℚ) (k : ℕ) : List Color × ℕ :=
  let hue := pyInt (rng k * 360)
  let hue_op := pyInt (rng (k + 1) * 180)
  let hues : List ℤ := [hue, hue - hue_op, hue + hue_op, hue - 2 * hue_op, hue + 2 * hue_op]
  gen5Loop rng hues 5 0 (k + 2) []

/-! ## Keyframes and curve data -/

structure Keyframe where
  data_path : String
  frame : ℚ
  value : ℚ
  interpolation : String
  easing : String
deriving DecidableEq

/-- A Blender curve data block: bevel parameters, geometry (spline control
points), its animation data (`none` = no animation data yet; keyframes of
all f-curves flattened into one list), and the attached material names. -/
structure CurveData where
  bevel_factor_start : ℚ
  bevel_factor_end : ℚ
  bevel_depth : ℚ
  points : List (ℚ × ℚ × ℚ)
  animation_data : Option (List Keyframe)
  materials : List String
deriving DecidableEq

def defaultCurveData : CurveData := ⟨0, 1, 0, [], none, []⟩

/-- Current value of an animatable numeric property, by data path. -/
def CurveData.prop (d : CurveData) (data_path : String) : ℚ :=
  if data_path = "bevel_factor_start" then d.bevel_factor_start
  else if data_path = "bevel_factor_end" then d.bevel_factor_end
  else if data_path = "bevel_depth" then d.bevel_depth
  else 0

/-- `data.keyframe_insert(data_path=..., frame=...)`: records the property's
current value at the given frame (creating animation data when absent);
new keyframes get Blender's default interpolation/easing. -/
def CurveData.keyframe_insert (d : CurveData) (data_path : String) (frame : ℚ) : CurveData :=
  { d with
      animation_data := some (d.animation_data.getD [] ++
        [⟨data_path, frame, d.prop data_path, "BEZIER", "AUTO"⟩]) }

/-- Data-level effect of `animate_curve_growth` (lines 36-44). -/
def CurveData.animate_growth (d : CurveData)
    (frame_start frame_end growth_factor_start growth_factor_end : ℚ) : CurveData :=
  let d := { d with bevel_factor_end := growth_factor_start }
  let d := { d with bevel_factor_start := growth_factor_start }
  let d := d.keyframe_insert "bevel_factor_start" frame_start
  let d := d.keyframe_insert "bevel_factor_end" frame_start
  let d := { d with bevel_factor_end := growth_factor_end }
  d.keyframe_insert "bevel_factor_end" frame_end

def shapeKeyframe (option : String) (kf : Keyframe) : Keyframe :=
  { kf with interpolation := option, easing := "EASE_OUT" }

/-- Data-level effect of `set_animation_fcurve`'s loop body on existing
animation data: every keyframe of every f-curve is reshaped. -/
def CurveData.shape_fcurves (d : CurveData) (option : String) : CurveData :=
  { d with animation_data := d.animation_data.map (List.map (shapeKeyframe option)) }

/-! ## Materials (`create_material`) -/

structure MatNode where
  ntype : String
  name : String
  input0 : Option (ℚ × ℚ × ℚ × ℚ)
  input1 : Option ℚ
deriving DecidableEq

structure MatLink where
  from_node : String
  to_node : String
deriving DecidableEq

structure Material where
  name : String
  use_nodes : Bool
  nodes : List MatNode
  links : List MatLink
deriving DecidableEq

/-- `bpy.data.materials.get(mat_id)`. -/
def materials_get (mats : List Material) (mat_id : String) : Option Material :=
  mats.find? (fun m => m.name == mat_id)

/-- In-place mutation of the material found by `get`: replace the first
registry entry with the given name. -/
def replaceFirstMaterial : List Material → String → Material → List Material
  | [], _, _ => []
  | m :: rest, mat_id, newMat =>
      if m.name = mat_id then newMat :: rest
      else m :: replaceFirstMaterial rest mat_id newMat

def outputNode : MatNode := ⟨"ShaderNodeOutputMaterial", "Material Output", none, none⟩

/-- The shader node built for a given `mat_type` string (lines 81-93);
`none` models the fall-through for an unknown type, where the later
`links.new(shader.outputs[0], ...)` raises `NameError`. -/
def shaderNodeFor (mat_type : String) (color : Color)
    (emission_intensity glossy_roughness : ℚ) : Option MatNode :=
  if mat_type = "diffuse" then
    some ⟨"ShaderNodeBsdfDiffuse", "Diffuse BSDF", some color.rgba, none⟩
  else if mat_type = "emission" then
    some ⟨"ShaderNodeEmission", "Emission", some color.rgba, some emission_intensity⟩
  else if mat_type = "glossy" then
    some ⟨"ShaderNodeBsdfGlossy", "Glossy BSDF", some color.rgba, some glossy_roughness⟩
  else none

/-- `create_material` (lines 64-97) acting on the material registry.
Returns the updated registry and the built material; the second component
is `none` when an unknown `mat_type` makes the source raise `NameError`
(at that point the graph has already been cleared and the output node
added, which the returned registry reflects). -/
def create_material (mats : List Material) (mat_id mat_type : String) (color : Color)
    (emission_intensity glossy_roughness : ℚ) : List Material × Option Material :=
  let present := (materials_get mats mat_id).isSome
  match shaderNodeFor mat_type color emission_intensity glossy_roughness with
  | none =>
      let mat : Material := ⟨mat_id, true, [outputNode], []⟩
      (if present then replaceFirstMaterial mats mat_id mat else mats ++ [mat], none)
  | some shader =>
      let mat : Material :=
        ⟨mat_id, true, [outputNode, shader], [⟨shader.name, outputNode.name⟩]⟩
      (if present then replaceFirstMaterial mats mat_id mat else mats ++ [mat], some mat)

/-- The material `create_material` builds for a valid "diffuse" request. -/
def diffuseMaterial (mat_id : String) (color : Color) : Material :=
  ⟨mat_id, true,
   [outputNode, ⟨"ShaderNodeBsdfDiffuse", "Diffuse BSDF", some color.rgba, none⟩],
   [⟨"Diffuse BSDF", "Material Output"⟩]⟩

/-! ## Scene: objects, data blocks, collections -/

/-- A Blender object: a name, a reference to its data block, and its
object-level animation data. -/
structure Obj where
  name : String
  dataId : ℕ
  animation_data : Option (List Keyframe)
deriving DecidableEq

/-- The host scene database. `datas` maps data-block ids to curve data;
`nextDataId` is the next fresh id; `nameCounter` feeds Blender's
fresh-name generation for copies (modelled as a numeric suffix). -/
structure Scene where
  datas : List (ℕ × CurveData)
  objects : List Obj
  collections : List (String × List String)
  materials : List Material
  nextDataId : ℕ
  nameCounter : ℕ
deriving DecidableEq

def lookupL (l : List (ℕ × CurveData)) (i : ℕ) : Option CurveData :=
  (l.find? (fun p => p.1 == i)).map (·.2)

def lookupData (s : Scene) (i : ℕ) : Option CurveData := lookupL s.datas i

/-- Point mutation of the data block with the given id. -/
def mapData (s : Scene) (i : ℕ) (f : CurveData → CurveData) : Scene :=
  { s with datas := s.datas.map (fun p => if p.1 = i then (p.1, f p.2) else p) }

def create_collection_if_not_exists (s : Scene) (collection_name : String) : Scene :=
  if s.collections.any (fun p => p.1 == collection_name) then s
  else { s with collections := s.collections ++ [(collection_name, [])] }

def add_object_to_collection (s : Scene) (base_object_name collection_name : String) : Scene :=
  let s := create_collection_if_not_exists s collection_name
  { s with collections := s.collections.map (fun p =>
      if p.1 = collection_name then (p.1, p.2 ++ [base_object_name]) else p) }

/-- Blender's fresh name for a copy of `obj` (a numeric suffix). -/
def copyName (obj : Obj) (counter : ℕ) : String := obj.name ++ "." ++ toString counter

/-- `copy_obj` (lines 26-34). -/
def copy_obj (s : Scene) (obj : Obj) (collection_name : Option String) : Scene × Obj :=
  -- obj_cpy = obj.copy(): new object under a fresh name, initially sharing
  -- the source's data block and object-level animation
  let obj_cpy : Obj :=
    { name := copyName obj s.nameCounter, dataId := obj.dataId,
      animation_data := obj.animation_data }
  -- obj_cpy.data = obj.data.copy(): fresh data block holding a deep copy
  let d := (lookupData s obj.dataId).getD defaultCurveData
  let obj_cpy := { obj_cpy with dataId := s.nextDataId }
  -- obj_cpy.animation_data_clear()
  let obj_cpy := { obj_cpy with animation_data := none }
  let s := { s with
    datas := s.datas ++ [(s.nextDataId, d)],
    objects := s.objects ++ [obj_cpy],
    nextDataId := s.nextDataId + 1,
    nameCounter := s.nameCounter + 1 }
  let s :=
    match collection_name with
    | none => add_object_to_collection s obj_cpy.name "Scene Collection"
    | some cname => add_object_to_collection s obj_cpy.name cname
  (s, obj_cpy)

/-- `animate_curve_growth` (lines 36-44), scene level. -/
def animate_curve_growth (s : Scene) (curve : Obj)
    (frame_start frame_end growth_factor_start growth_factor_end : ℚ) : Scene :=
  mapData s curve.dataId
    (fun d => d.animate_growth frame_start frame_end growth_factor_start growth_factor_end)

/-- `set_animation_fcurve` (lines 53-62): `none` models the
`AttributeError` raised when the object's data has no animation data. -/
def set_animation_fcurve (s : Scene) (base_object : Obj) (option : String) : Option Scene :=
  match ((lookupData s base_object.dataId).getD defaultCurveData).animation_data with
  | none => none
  | some _ => some (mapData s base_object.dataId (fun d => d.shape_fcurves option))

/-! ## Growth strategies -/

/-- The loop body shared verbatim by the two growth strategies
(lines 128-142 and 157-172): duplicate the source curve into the named
collection, animate its growth over `[frame_start, frame_end]` from
`growth_factor_start` to `growth_factor_end`, reshape the f-curves to
the given interpolation option, keyframe the thickness at frame 0, and
create/attach the per-duplicate material with the given palette color.
Returns the updated scene, the duplicate, and its material. -/
def growStep (collection_name interp_option : String) (curve : Obj) (color : Color)
    (frame_start frame_end growth_factor_start growth_factor_end curr_thickness : ℚ)
    (s : Scene) : Except String (Scene × Obj × Material) :=
  let sc := copy_obj s curve (some collection_name)
  let s := sc.1
  let curve_cpy := sc.2
  let s := animate_curve_growth s curve_cpy frame_start frame_end
    growth_factor_start growth_factor_end
  match set_animation_fcurve s curve_cpy interp_option with
  | none => .error "AttributeError"
  | some s =>
    let s := mapData s curve_cpy.dataId
      (fun d => ({ d with bevel_depth := curr_thickness }).keyframe_insert "bevel_depth" 0)
    match create_material s.materials (curve_cpy.name ++ "_mat") "diffuse" color 1 (1/10) with
    | (_, none) => .error "NameError"
    | (mats1, some mat) =>
      let s := { s with materials := mats1 }
      let s := mapData s curve_cpy.dataId
        (fun d => { d with materials := d.materials ++ [mat.name] })
      .ok (s, curve_cpy, mat)

/-- The `for instance_i in range(n_instances)` loop of
`grow_from_thicker_to_thinner` (lines 126-142). Arguments after the
fixed ones: iterations remaining, `instance_i`, `curr_end_growth`,
`curr_thickness`, the scene, and the accumulated lists of created
duplicates and created materials (the observable per-instance output). -/
def growThickerLoop (curve : Obj) (rand_5_colors : List Color) (n_frames : ℕ)
    (growth_delta curr_start_growth thickness_delta : ℚ) :
    ℕ → ℕ → ℚ → ℚ → Scene → List Obj → List Material →
    Except String (Scene × List Obj × List Material)
  | 0, _, _, _, s, objs, mats => .ok (s, objs, mats)
  | remaining + 1, instance_i, curr_end_growth, curr_thickness, s, objs, mats =>
    match growStep "curve_cpy_thicker_to_thinner_collection" "CUBIC" curve
        (rand_5_colors.getD (instance_i % 2) ⟨0, 0, 0⟩) 0 (n_frames : ℚ)
        curr_start_growth curr_end_growth curr_thickness s with
    | .error e => .error e
    | .ok (s, curve_cpy, mat) =>
        growThickerLoop curve rand_5_colors n_frames growth_delta curr_start_growth thickness_delta
          remaining (instance_i + 1) (curr_end_growth - growth_delta)
          (curr_thickness + thickness_delta) s (objs ++ [curve_cpy]) (mats ++ [mat])

/-- `grow_from_thicker_to_thinner` (lines 116-142). `n_instances = 0`
raises `ZeroDivisionError` at the `growth_delta` computation, before any
scene mutation, palette draw, duplicate, keyframe or material. Returns
the updated scene, the duplicates, and the materials created for them. -/
def grow_from_thicker_to_thinner (s : Scene) (rng : ℕ → ℚ) (curve : Obj)
    (n_instances n_frames : ℕ) : Except String (Scene × List Obj × List Material) :=
  if n_instances = 0 then .error "ZeroDivisionError: division by zero"
  else
    let growth_delta : ℚ := 1 / (n_instances : ℚ)
    let curr_start_growth : ℚ := 0
    let curr_end_growth : ℚ := 1
    let curr_thickness : ℚ := 1/10
    let thickness_delta : ℚ := 3/10
    let rand_5_colors := (generate_5_random_colors_that_fit rng 0).1
    growThickerLoop curve rand_5_colors n_frames growth_delta curr_start_growth thickness_delta
      n_instances 0 curr_end_growth curr_thickness s [] []

/-- The `for instance_i in range(n_instances)` loop of
`grow_from_thinner_to_thicker` (lines 155-172). Loop state:
iterations remaining, `instance_i`, `curr_frame`, `curr_start_growth`,
`curr_thickness`. -/
def growThinnerLoop (curve : Obj) (rand_5_colors : List Color)
    (delta_frame growth_delta thickness_delta : ℚ) :
    ℕ → ℕ → ℚ → ℚ → ℚ → Scene → List Obj → List Material →
    Except String (Scene × List Obj × List Material)
  | 0, _, _, _, _, s, objs, mats => .ok (s, objs, mats)
  | remaining + 1, instance_i, curr_frame, curr_start_growth, curr_thickness, s, objs, mats =>
    match growStep "curve_cpy_thinner_to_thicker_collection" "LINEAR" curve
        (rand_5_colors.getD (instance_i % 2) ⟨0, 0, 0⟩) curr_frame (curr_frame + delta_frame)
        curr_start_growth (curr_start_growth + growth_delta) curr_thickness s with
    | .error e => .error e
    | .ok (s, curve_cpy, mat) =>
        growThinnerLoop curve rand_5_colors delta_frame growth_delta thickness_delta
          remaining (instance_i + 1) (curr_frame + delta_frame)
          (curr_start_growth + growth_delta) (curr_thickness + thickness_delta)
          s (objs ++ [curve_cpy]) (mats ++ [mat])

/-- `grow_from_thinner_to_thicker` (lines 144-172). `n_instances = 0`
raises `ZeroDivisionError` at the `delta_frame` computation, before any
scene mutation (the preceding `curr_frame = 0` is a local assignment). -/
def grow_from_thinner_to_thicker (s : Scene) (rng : ℕ → ℚ) (curve : Obj)
    (n_instances n_frames : ℕ) : Except String (Scene × List Obj × List Material) :=
  if n_instances = 0 then .error "ZeroDivisionError: division by zero"
  else
    let curr_frame : ℚ := 0
    let delta_frame : ℚ := (n_frames : ℚ) / (n_instances : ℚ)
    let growth_delta : ℚ := 1 / (n_instances : ℚ)
    let curr_start_growth : ℚ := 0
    let curr_thickness : ℚ := 1/10
    let thickness_delta : ℚ := 3/10
    let rand_5_colors := (generate_5_random_colors_that_fit rng 0).1
    growThinnerLoop curve rand_5_colors delta_frame growth_delta thickness_delta
      n_instances 0 curr_frame curr_start_growth curr_thickness s [] []

/-! ## Closed forms for one loop iteration's effect on the duplicate data -/

/-- Effect of one `growStep` on the duplicated data block, starting from
the source data `d0`: grow over `[fs, fe]` from `gfs` to `gfe`, reshape
the f-curves, keyframe the thickness at frame 0, attach the material. -/
def growStepData (d0 : CurveData) (fs fe gfs gfe ct : ℚ)
    (interp_option mat_name : String) : CurveData :=
  let d := d0.animate_growth fs fe gfs gfe
  let d := d.shape_fcurves interp_option
  let d := ({ d with bevel_depth := ct }).keyframe_insert "bevel_depth" 0
  { d with materials := d.materials ++ [mat_name] }

/-- Final data block of one thick-to-thin duplicate. -/
def thickerInstanceData (d0 : CurveData) (F curr_start_growth curr_end_growth curr_thickness : ℚ)
    (mat_name : String) : CurveData :=
  growStepData d0 0 F curr_start_growth curr_end_growth curr_thickness "CUBIC" mat_name

/-- Final data block of one thin-to-thick duplicate. -/
def thinnerInstanceData (d0 : CurveData)
    (curr_frame delta_frame curr_start_growth growth_delta curr_thickness : ℚ)
    (mat_name : String) : CurveData :=
  growStepData d0 curr_frame (curr_frame + delta_frame) curr_start_growth
    (curr_start_growth + growth_delta) curr_thickness "LINEAR" mat_name

def copyMatName (obj : Obj) (counter : ℕ) : String := copyName obj counter ++ "_mat"

/-- All data-block ids present in a scene are below `nextDataId`. -/
def SceneFresh (s : Scene) : Prop := ∀ p ∈ s.datas, p.1 < s.nextDataId

/-! ## Concrete test fixtures -/

def sampleData : CurveData := ⟨0, 1, 0, [(0, 0, 0), (1, 1, 1)], none, []⟩

def sampleCurve : Obj := ⟨"BezierCurve", 0, none⟩

def sampleScene : Scene := ⟨[(0, sampleData)], [sampleCurve], [], [], 1, 0⟩

def sampleRng : ℕ → ℚ := fun _ => 1/2

def sampleKf : Keyframe := ⟨"bevel_factor_end", 0, 0, "BEZIER", "AUTO"⟩

def sampleAnimatedData : CurveData := ⟨0, 1, 0, [], some [sampleKf], []⟩

def sampleAnimatedScene : Scene := ⟨[(0, sampleAnimatedData)], [sampleCurve], [], [], 1, 0⟩

/-- The thickness value of instance `i` in either strategy. -/
def thicknessValue (i : ℕ) : ℚ := 1/10 + 3/10 * i

instance (s : Scene) : Decidable (SceneFresh s) :=
  inferInstanceAs (Decidable (∀ p ∈ s.datas, p.1 < s.nextDataId))

/-! ## Plumbing lemmas -/

theorem lookupL_append_right (l l2 : List (ℕ × CurveData)) (i : ℕ)
    (h : ∀ p ∈ l, p.1 ≠ i) : lookupL (l ++ l2) i = lookupL l2 i := by
  unfold lookupL
  rw [List.find?_append, List.find?_eq_none.mpr, Option.none_or]
  intro p hp
  simpa using h p hp

theorem lookupL_append_left (l l2 : List (ℕ × CurveData)) (i : ℕ) (d : CurveData)
    (h : lookupL l i = some d) : lookupL (l ++ l2) i = some d := by
  unfold lookupL at h ⊢
  rw [List.find?_append]
  cases hf : l.find? (fun p => p.1 == i) with
  | none => rw [hf] at h; simp at h
  | some q => rw [hf] at h; simpa using h

theorem lookupL_singleton (i : ℕ) (d : CurveData) : lookupL [(i, d)] i = some d := by
  simp [lookupL]

theorem map_update_not_mem (l : List (ℕ × CurveData)) (i : ℕ) (f : CurveData → CurveData)
    (h : ∀ p ∈ l, p.1 ≠ i) :
    l.map (fun p => if p.1 = i then (p.1, f p.2) else p) = l := by
  induction l with
  | nil => rfl
  | cons a t ih =>
    simp only [List.map_cons]
    rw [if_neg (h a (List.mem_cons_self a t)), ih fun p hp => h p (List.mem_cons_of_mem a hp)]

theorem map_update_append_single (l : List (ℕ × CurveData)) (i : ℕ) (d : CurveData)
    (f : CurveData → CurveData) (h : ∀ p ∈ l, p.1 ≠ i) :
    (l ++ [(i, d)]).map (fun p => if p.1 = i then (p.1, f p.2) else p) = l ++ [(i, f d)] := by
  rw [List.map_append, map_update_not_mem l i f h]
  simp

@[simp] theorem create_collection_datas (s : Scene) (c : String) :
    (create_collection_if_not_exists s c).datas = s.datas := by
  unfold create_collection_if_not_exists; split <;> rfl

@[simp] theorem create_collection_objects (s : Scene) (c : String) :
    (create_collection_if_not_exists s c).objects = s.objects := by
  unfold create_collection_if_not_exists; split <;> rfl

@[simp] theorem create_collection_materials (s : Scene) (c : String) :
    (create_collection_if_not_exists s c).materials = s.materials := by
  unfold create_collection_if_not_exists; split <;> rfl

@[simp] theorem create_collection_nextDataId (s : Scene) (c : String) :
    (create_collection_if_not_exists s c).nextDataId = s.nextDataId := by
  unfold create_collection_if_not_exists; split <;> rfl

@[simp] theorem create_collection_nameCounter (s : Scene) (c : String) :
    (create_collection_if_not_exists s c).nameCounter = s.nameCounter := by
  unfold create_collection_if_not_exists; split <;> rfl

@[simp] theorem add_object_datas (s : Scene) (o c : String) :
    (add_object_to_collection s o c).datas = s.datas := by
  unfold add_object_to_collection; simp

@[simp] theorem add_object_objects (s : Scene) (o c : String) :
    (add_object_to_collection s o c).objects = s.objects := by
  unfold add_object_to_collection; simp

@[simp] theorem add_object_materials (s : Scene) (o c : String) :
    (add_object_to_collection s o c).materials = s.materials := by
  unfold add_object_to_collection; simp

@[simp] theorem add_object_nextDataId (s : Scene) (o c : String) :
    (add_object_to_collection s o c).nextDataId = s.nextDataId := by
  unfold add_object_to_collection; simp

@[simp] theorem add_object_nameCounter (s : Scene) (o c : String) :
    (add_object_to_collection s o c).nameCounter = s.nameCounter := by
  unfold add_object_to_collection; simp

/-! ## Data-level closed forms -/

@[simp] theorem prop_bfs (d : CurveData) :
    d.prop "bevel_factor_start" = d.bevel_factor_start := rfl

@[simp] theorem prop_bfe (d : CurveData) :
    d.prop "bevel_factor_end" = d.bevel_factor_end := rfl

@[simp] theorem prop_depth (d : CurveData) :
    d.prop "bevel_depth" = d.bevel_depth := rfl

theorem animate_growth_animation (d : CurveData) (fs fe a b : ℚ) :
    (d.animate_growth fs fe a b).animation_data =
      some (d.animation_data.getD [] ++
        [⟨"bevel_factor_start", fs, a, "BEZIER", "AUTO"⟩,
         ⟨"bevel_factor_end", fs, a, "BEZIER", "AUTO"⟩,
         ⟨"bevel_factor_end", fe, b, "BEZIER", "AUTO"⟩]) := by
  simp [CurveData.animate_growth, CurveData.keyframe_insert]

/-- Keyframes of one duplicate's data block, for a pristine source. -/
theorem growStepData_animation (d0 : CurveData) (fs fe gfs gfe ct : ℚ) (opt nm : String)
    (h : d0.animation_data = none) :
    (growStepData d0 fs fe gfs gfe ct opt nm).animation_data =
      some [⟨"bevel_factor_start", fs, gfs, opt, "EASE_OUT"⟩,
            ⟨"bevel_factor_end", fs, gfs, opt, "EASE_OUT"⟩,
            ⟨"bevel_factor_end", fe, gfe, opt, "EASE_OUT"⟩,
            ⟨"bevel_depth", 0, ct, "BEZIER", "AUTO"⟩] := by
  simp [growStepData, CurveData.shape_fcurves, CurveData.keyframe_insert,
    shapeKeyframe, animate_growth_animation, h]

theorem growStepData_materials (d0 : CurveData) (fs fe gfs gfe ct : ℚ) (opt nm : String) :
    (growStepData d0 fs fe gfs gfe ct opt nm).materials = d0.materials ++ [nm] := by
  simp [growStepData, CurveData.shape_fcurves, CurveData.keyframe_insert,
    CurveData.animate_growth]

theorem create_material_diffuse (mats : List Material) (mat_id : String) (c : Color) (e g : ℚ) :
    create_material mats mat_id "diffuse" c e g =
      (if (materials_get mats mat_id).isSome
       then replaceFirstMaterial mats mat_id (diffuseMaterial mat_id c)
       else mats ++ [diffuseMaterial mat_id c],
       some (diffuseMaterial mat_id c)) := rfl

theorem copy_obj_eq (s : Scene) (obj : Obj) (cname : String) (d0 : CurveData)
    (hlook : lookupData s obj.dataId = some d0) :
    copy_obj s obj (some cname) =
      (add_object_to_collection
        { s with datas := s.datas ++ [(s.nextDataId, d0)],
                 objects := s.objects ++ [⟨copyName obj s.nameCounter, s.nextDataId, none⟩],
                 nextDataId := s.nextDataId + 1,
                 nameCounter := s.nameCounter + 1 }
        (copyName obj s.nameCounter) cname,
       ⟨copyName obj s.nameCounter, s.nextDataId, none⟩) := by
  unfold copy_obj
  rw [hlook]
  rfl

theorem map_update_animate (l : List (ℕ × CurveData)) (i : ℕ) (d : CurveData)
    (fs fe a b : ℚ) (h : ∀ p ∈ l, p.1 ≠ i) :
    (l ++ [(i, d)]).map
        (fun p => if p.1 = i then (p.1, p.2.animate_growth fs fe a b) else p) =
      l ++ [(i, d.animate_growth fs fe a b)] :=
  map_update_append_single l i d (fun x => x.animate_growth fs fe a b) h

theorem map_update_shape (l : List (ℕ × CurveData)) (i : ℕ) (d : CurveData)
    (opt : String) (h : ∀ p ∈ l, p.1 ≠ i) :
    (l ++ [(i, d)]).map
        (fun p => if p.1 = i then (p.1, p.2.shape_fcurves opt) else p) =
      l ++ [(i, d.shape_fcurves opt)] :=
  map_update_append_single l i d (fun x => x.shape_fcurves opt) h

theorem map_update_depth (l : List (ℕ × CurveData)) (i : ℕ) (d : CurveData)
    (ct : ℚ) (h : ∀ p ∈ l, p.1 ≠ i) :
    (l ++ [(i, d)]).map
        (fun p => if p.1 = i then
          (p.1, ({ p.2 with bevel_depth := ct }).keyframe_insert "bevel_depth" 0) else p) =
      l ++ [(i, ({ d with bevel_depth := ct }).keyframe_insert "bevel_depth" 0)] :=
  map_update_append_single l i d
    (fun x => ({ x with bevel_depth := ct }).keyframe_insert "bevel_depth" 0) h

theorem map_update_matappend (l : List (ℕ × CurveData)) (i : ℕ) (d : CurveData)
    (m : String) (h : ∀ p ∈ l, p.1 ≠ i) :
    (l ++ [(i, d)]).map
        (fun p => if p.1 = i then (p.1, { p.2 with materials := p.2.materials ++ [m] }) else p) =
      l ++ [(i, { d with materials := d.materials ++ [m] })] :=
  map_update_append_single l i d
    (fun x => { x with materials := x.materials ++ [m] }) h

theorem lookupL_append_fresh (l : List (ℕ × CurveData)) (i : ℕ) (d : CurveData)
    (h : ∀ p ∈ l, p.1 ≠ i) : lookupL (l ++ [(i, d)]) i = some d := by
  rw [lookupL_append_right l _ i h, lookupL_singleton]

/-- One `growStep` succeeds on a fresh scene, returning the duplicate and
its diffuse material, and extends the data store by exactly the closed
form `growStepData` at a fresh id. -/
theorem growStep_eq (cname oname : String) (curve : Obj) (c : Color)
    (fs fe gfs gfe ct : ℚ) (s : Scene) (d0 : CurveData)
    (hfresh : SceneFresh s) (hlook : lookupData s curve.dataId = some d0) :
    ∃ s1 : Scene,
      growStep cname oname curve c fs fe gfs gfe ct s = .ok
        (s1, ⟨copyName curve s.nameCounter, s.nextDataId, none⟩,
         diffuseMaterial (copyMatName curve s.nameCounter) c) ∧
      s1.datas = s.datas ++ [(s.nextDataId,
        growStepData d0 fs fe gfs gfe ct oname (copyMatName curve s.nameCounter))] ∧
      s1.nextDataId = s.nextDataId + 1 ∧
      s1.nameCounter = s.nameCounter + 1 := by
  have hne : ∀ p ∈ s.datas, p.1 ≠ s.nextDataId := fun p hp => Nat.ne_of_lt (hfresh p hp)
  simp only [growStep, copy_obj_eq s curve cname d0 hlook, animate_curve_growth, mapData,
    set_animation_fcurve, lookupData, add_object_datas, add_object_objects,
    add_object_materials, add_object_nextDataId, add_object_nameCounter,
    map_update_animate _ _ _ _ _ _ _ hne, map_update_shape _ _ _ _ hne,
    map_update_depth _ _ _ _ hne, map_update_matappend _ _ _ _ hne,
    lookupL_append_fresh _ _ _ hne,
    Option.getD_some, animate_growth_animation, create_material_diffuse, copyMatName]
  refine ⟨_, rfl, ?_, ?_, ?_⟩
  · simp [growStepData, diffuseMaterial]
  · rfl
  · rfl

/-- Closed form for the thick-to-thin loop: starting from instance `i`
with accumulators `objs`/`mats`, it creates one duplicate, one data
block and one material per remaining instance `k`, with end-growth
`ceg - k·gd` and thickness `ct + k·td`. -/
theorem growThickerLoop_spec (curve : Obj) (rand5 : List Color) (F : ℕ)
    (gd csg td : ℚ) (d0 : CurveData) (r : ℕ) :
    ∀ (i : ℕ) (ceg ct : ℚ) (s : Scene) (objs : List Obj) (mats : List Material),
      SceneFresh s → lookupData s curve.dataId = some d0 →
      ∃ s1 : Scene,
        growThickerLoop curve rand5 F gd csg td r i ceg ct s objs mats = .ok (s1,
          objs ++ (List.range r).map (fun k =>
            ⟨copyName curve (s.nameCounter + k), s.nextDataId + k, none⟩),
          mats ++ (List.range r).map (fun k =>
            diffuseMaterial (copyMatName curve (s.nameCounter + k))
              (rand5.getD ((i + k) % 2) ⟨0, 0, 0⟩))) ∧
        s1.datas = s.datas ++ (List.range r).map (fun k =>
          (s.nextDataId + k,
           thickerInstanceData d0 (F : ℚ) csg (ceg - k * gd) (ct + k * td)
             (copyMatName curve (s.nameCounter + k)))) ∧
        s1.nextDataId = s.nextDataId + r := by
  induction r with
  | zero =>
    intro i ceg ct s objs mats _ _
    exact ⟨s, by simp [growThickerLoop], by simp, by simp⟩
  | succ r ih =>
    intro i ceg ct s objs mats hfresh hlook
    obtain ⟨sStep, hstep, hdatas, hnid, hnc⟩ :=
      growStep_eq "curve_cpy_thicker_to_thinner_collection" "CUBIC" curve
        (rand5.getD (i % 2) ⟨0, 0, 0⟩) 0 (F : ℚ) csg ceg ct s d0 hfresh hlook
    have hfresh1 : SceneFresh sStep := by
      intro p hp
      rw [hdatas] at hp
      rw [hnid]
      rcases List.mem_append.mp hp with h | h
      · exact Nat.lt_succ_of_lt (hfresh p h)
      · simp only [List.mem_singleton] at h
        subst h
        exact Nat.lt_succ_self _
    have hlook1 : lookupData sStep curve.dataId = some d0 := by
      unfold lookupData
      rw [hdatas]
      exact lookupL_append_left _ _ _ _ hlook
    obtain ⟨s1, hrun, hdatas1, hnid1⟩ :=
      ih (i + 1) (ceg - gd) (ct + td) sStep
        (objs ++ [⟨copyName curve s.nameCounter, s.nextDataId, none⟩])
        (mats ++ [diffuseMaterial (copyMatName curve s.nameCounter)
          (rand5.getD (i % 2) ⟨0, 0, 0⟩)]) hfresh1 hlook1
    refine ⟨s1, ?_, ?_, ?_⟩
    · simp only [growThickerLoop]
      rw [hstep]
      simp only []
      rw [hrun]
      refine congrArg Except.ok ?_
      refine congrArg₂ Prod.mk rfl ?_
      refine congrArg₂ Prod.mk ?_ ?_
      · rw [List.range_succ_eq_map, List.map_cons, List.map_map, List.append_assoc]
        refine congrArg (objs ++ ·) ?_
        refine congrArg₂ List.cons (by simp) ?_
        refine List.map_congr_left ?_
        intro k hk
        simp only [Function.comp_apply, hnc, hnid]
        have h1 : s.nextDataId + 1 + k = s.nextDataId + (k + 1) := by omega
        have h2 : s.nameCounter + 1 + k = s.nameCounter + (k + 1) := by omega
        rw [h1, h2]
      · rw [List.range_succ_eq_map, List.map_cons, List.map_map, List.append_assoc]
        refine congrArg (mats ++ ·) ?_
        refine congrArg₂ List.cons (by simp) ?_
        refine List.map_congr_left ?_
        intro k hk
        simp only [Function.comp_apply, hnc]
        have h1 : s.nameCounter + 1 + k = s.nameCounter + (k + 1) := by omega
        have h2 : i + 1 + k = i + (k + 1) := by omega
        rw [h1, h2]
    · rw [hdatas1, hdatas, List.append_assoc]
      refine congrArg (s.datas ++ ·) ?_
      rw [List.range_succ_eq_map, List.map_cons, List.map_map]
      refine congrArg₂ List.cons ?_ ?_
      · simp [thickerInstanceData]
      · refine List.map_congr_left ?_
        intro k hk
        simp only [Function.comp_apply, hnc, hnid]
        have h1 : s.nextDataId + 1 + k = s.nextDataId + (k + 1) := by omega
        have h2 : s.nameCounter + 1 + k = s.nameCounter + (k + 1) := by omega
        rw [h1, h2]
        have h3 : ceg - gd - (k : ℚ) * gd = ceg - ((k : ℕ) + 1 : ℕ) * gd := by
          push_cast
          ring
        have h4 : ct + td + (k : ℚ) * td = ct + ((k : ℕ) + 1 : ℕ) * td := by
          push_cast
          ring
        rw [h3, h4]
    · rw [hnid1, hnid]
      omega

/-- Closed form for the thin-to-thick loop: remaining instance `k` gets
the frame window `[cf + k·df, cf + (k+1)·df]` and growth fractions
`csg + k·gd` to `csg + (k+1)·gd`. -/
theorem growThinnerLoop_spec (curve : Obj) (rand5 : List Color)
    (df gd td : ℚ) (d0 : CurveData) (r : ℕ) :
    ∀ (i : ℕ) (cf csg ct : ℚ) (s : Scene) (objs : List Obj) (mats : List Material),
      SceneFresh s → lookupData s curve.dataId = some d0 →
      ∃ s1 : Scene,
        growThinnerLoop curve rand5 df gd td r i cf csg ct s objs mats = .ok (s1,
          objs ++ (List.range r).map (fun k =>
            ⟨copyName curve (s.nameCounter + k), s.nextDataId + k, none⟩),
          mats ++ (List.range r).map (fun k =>
            diffuseMaterial (copyMatName curve (s.nameCounter + k))
              (rand5.getD ((i + k) % 2) ⟨0, 0, 0⟩))) ∧
        s1.datas = s.datas ++ (List.range r).map (fun k =>
          (s.nextDataId + k,
           thinnerInstanceData d0 (cf + k * df) df (csg + k * gd) gd (ct + k * td)
             (copyMatName curve (s.nameCounter + k)))) ∧
        s1.nextDataId = s.nextDataId + r := by
  induction r with
  | zero =>
    intro i cf csg ct s objs mats _ _
    exact ⟨s, by simp [growThinnerLoop], by simp, by simp⟩
  | succ r ih =>
    intro i cf csg ct s objs mats hfresh hlook
    obtain ⟨sStep, hstep, hdatas, hnid, hnc⟩ :=
      growStep_eq "curve_cpy_thinner_to_thicker_collection" "LINEAR" curve
        (rand5.getD (i % 2) ⟨0, 0, 0⟩) cf (cf + df) csg (csg + gd) ct s d0 hfresh hlook
    have hfresh1 : SceneFresh sStep := by
      intro p hp
      rw [hdatas] at hp
      rw [hnid]
      rcases List.mem_append.mp hp with h | h
      · exact Nat.lt_succ_of_lt (hfresh p h)
      · simp only [List.mem_singleton] at h
        subst h
        exact Nat.lt_succ_self _
    have hlook1 : lookupData sStep curve.dataId = some d0 := by
      unfold lookupData
      rw [hdatas]
      exact lookupL_append_left _ _ _ _ hlook
    obtain ⟨s1, hrun, hdatas1, hnid1⟩ :=
      ih (i + 1) (cf + df) (csg + gd) (ct + td) sStep
        (objs ++ [⟨copyName curve s.nameCounter, s.nextDataId, none⟩])
        (mats ++ [diffuseMaterial (copyMatName curve s.nameCounter)
          (rand5.getD (i % 2) ⟨0, 0, 0⟩)]) hfresh1 hlook1
    refine ⟨s1, ?_, ?_, ?_⟩
    · simp only [growThinnerLoop]
      rw [hstep]
      simp only []
      rw [hrun]
      refine congrArg Except.ok ?_
      refine congrArg₂ Prod.mk rfl ?_
      refine congrArg₂ Prod.mk ?_ ?_
      · rw [List.range_succ_eq_map, List.map_cons, List.map_map, List.append_assoc]
        refine congrArg (objs ++ ·) ?_
        refine congrArg₂ List.cons (by simp) ?_
        refine List.map_congr_left ?_
        intro k hk
        simp only [Function.comp_apply, hnc, hnid]
        have h1 : s.nextDataId + 1 + k = s.nextDataId + (k + 1) := by omega
        have h2 : s.nameCounter + 1 + k = s.nameCounter + (k + 1) := by omega
        rw [h1, h2]
      · rw [List.range_succ_eq_map, List.map_cons, List.map_map, List.append_assoc]
        refine congrArg (mats ++ ·) ?_
        refine congrArg₂ List.cons (by simp) ?_
        refine List.map_congr_left ?_
        intro k hk
        simp only [Function.comp_apply, hnc]
        have h1 : s.nameCounter + 1 + k = s.nameCounter + (k + 1) := by omega
        have h2 : i + 1 + k = i + (k + 1) := by omega
        rw [h1, h2]
    · rw [hdatas1, hdatas, List.append_assoc]
      refine congrArg (s.datas ++ ·) ?_
      rw [List.range_succ_eq_map, List.map_cons, List.map_map]
      refine congrArg₂ List.cons ?_ ?_
      · simp [thinnerInstanceData]
      · refine List.map_congr_left ?_
        intro k hk
        simp only [Function.comp_apply, hnc, hnid]
        have h1 : s.nextDataId + 1 + k = s.nextDataId + (k + 1) := by omega
        have h2 : s.nameCounter + 1 + k = s.nameCounter + (k + 1) := by omega
        rw [h1, h2]
        have h3 : cf + df + (k : ℚ) * df = cf + ((k : ℕ) + 1 : ℕ) * df := by
          push_cast
          ring
        have h4 : csg + gd + (k : ℚ) * gd = csg + ((k : ℕ) + 1 : ℕ) * gd := by
          push_cast
          ring
        have h5 : ct + td + (k : ℚ) * td = ct + ((k : ℕ) + 1 : ℕ) * td := by
          push_cast
          ring
        rw [h3, h4, h5]
    · rw [hnid1, hnid]
      omega

theorem lookupL_map_range (nid : ℕ) (g : ℕ → CurveData) (r k : ℕ) (hk : k < r) :
    lookupL ((List.range r).map (fun j => (nid + j, g j))) (nid + k) = some (g k) := by
  induction r with
  | zero => omega
  | succ r ih =>
    rw [List.range_succ, List.map_append]
    rcases Nat.lt_or_ge k r with h | h
    · exact lookupL_append_left _ _ _ _ (ih h)
    · have hkr : k = r := by omega
      subst hkr
      rw [lookupL_append_right]
      · simpa using lookupL_singleton (nid + k) (g k)
      · intro p hp
        simp only [List.mem_map, List.mem_range] at hp
        obtain ⟨j, hj, rfl⟩ := hp
        simp only [ne_eq]
        omega

theorem lookupL_base_map_range (l : List (ℕ × CurveData)) (nid : ℕ) (g : ℕ → CurveData)
    (r k : ℕ) (hl : ∀ p ∈ l, p.1 < nid) (hk : k < r) :
    lookupL (l ++ (List.range r).map (fun j => (nid + j, g j))) (nid + k) = some (g k) := by
  rw [lookupL_append_right, lookupL_map_range nid g r k hk]
  intro p hp
  have := hl p hp
  omega

theorem getElem?_map_range {α : Type} (f : ℕ → α) (r k : ℕ) (hk : k < r) :
    ((List.range r).map f)[k]? = some (f k) := by
  simp [List.getElem?_map, List.getElem?_range, hk]

/-- Closed form for a full `grow_from_thicker_to_thinner` run. -/
theorem grow_thicker_run (s : Scene) (rng : ℕ → ℚ) (curve : Obj) (n F : ℕ) (d0 : CurveData)
    (hn : 0 < n) (hfresh : SceneFresh s) (hlook : lookupData s curve.dataId = some d0) :
    ∃ s1 : Scene,
      grow_from_thicker_to_thinner s rng curve n F = .ok (s1,
        (List.range n).map (fun k =>
          ⟨copyName curve (s.nameCounter + k), s.nextDataId + k, none⟩),
        (List.range n).map (fun k =>
          diffuseMaterial (copyMatName curve (s.nameCounter + k))
            ((generate_5_random_colors_that_fit rng 0).1.getD (k % 2) ⟨0, 0, 0⟩))) ∧
      s1.datas = s.datas ++ (List.range n).map (fun k =>
        (s.nextDataId + k,
         thickerInstanceData d0 (F : ℚ) 0 (1 - k * (1 / (n : ℚ))) (1/10 + k * (3/10))
           (copyMatName curve (s.nameCounter + k)))) ∧
      s1.nextDataId = s.nextDataId + n := by
  obtain ⟨s1, hrun, hdatas, hnid⟩ :=
    growThickerLoop_spec curve (generate_5_random_colors_that_fit rng 0).1 F
      (1 / (n : ℚ)) 0 (3/10) d0 n 0 1 (1/10) s [] [] hfresh hlook
  refine ⟨s1, ?_, hdatas, hnid⟩
  unfold grow_from_thicker_to_thinner
  rw [if_neg (Nat.pos_iff_ne_zero.mp hn)]
  simpa using hrun

/-- Closed form for a full `grow_from_thinner_to_thicker` run. -/
theorem grow_thinner_run (s : Scene) (rng : ℕ → ℚ) (curve : Obj) (n F : ℕ) (d0 : CurveData)
    (hn : 0 < n) (hfresh : SceneFresh s) (hlook : lookupData s curve.dataId = some d0) :
    ∃ s1 : Scene,
      grow_from_thinner_to_thicker s rng curve n F = .ok (s1,
        (List.range n).map (fun k =>
          ⟨copyName curve (s.nameCounter + k), s.nextDataId + k, none⟩),
        (List.range n).map (fun k =>
          diffuseMaterial (copyMatName curve (s.nameCounter + k))
            ((generate_5_random_colors_that_fit rng 0).1.getD (k % 2) ⟨0, 0, 0⟩))) ∧
      s1.datas = s.datas ++ (List.range n).map (fun k =>
        (s.nextDataId + k,
         thinnerInstanceData d0 (k * ((F : ℚ) / (n : ℚ))) ((F : ℚ) / (n : ℚ))
           (k * (1 / (n : ℚ))) (1 / (n : ℚ)) (1/10 + k * (3/10))
           (copyMatName curve (s.nameCounter + k)))) ∧
      s1.nextDataId = s.nextDataId + n := by
  obtain ⟨s1, hrun, hdatas, hnid⟩ :=
    growThinnerLoop_spec curve (generate_5_random_colors_that_fit rng 0).1
      ((F : ℚ) / (n : ℚ)) (1 / (n : ℚ)) (3/10) d0 n 0 0 0 (1/10) s [] [] hfresh hlook
  refine ⟨s1, ?_, ?_, hnid⟩
  · unfold grow_from_thinner_to_thicker
    rw [if_neg (Nat.pos_iff_ne_zero.mp hn)]
    simpa using hrun
  · rw [hdatas]
    refine congrArg (s.datas ++ ·) (List.map_congr_left ?_)
    intro k hk
    rw [zero_add, zero_add]

/-! ## Claim theorems -/

/-- C1: for every `n_instances = n ≥ 1` and frame count `F`, the
thick-to-thin strategy produces exactly `n` duplicates; instance `i`'s
bevel end-fraction is keyframed to exactly `1 - i/n` at frame `F`, its
start keyframes sit at frame 0 with start-fraction 0, and all instances
share the frame range `[0, F]`. -/
theorem claim_C1_thick_to_thin (s : Scene) (rng : ℕ → ℚ) (curve : Obj) (d0 : CurveData)
    (n F : ℕ) (hn : 0 < n) (hfresh : SceneFresh s)
    (hlook : lookupData s curve.dataId = some d0) (hanim : d0.animation_data = none) :
    ∃ s1 dups mats,
      grow_from_thicker_to_thinner s rng curve n F = .ok (s1, dups, mats) ∧
      dups.length = n ∧
      ∀ i, i < n → ∃ dup d, dups[i]? = some dup ∧
        lookupData s1 dup.dataId = some d ∧
        d.animation_data = some
          [⟨"bevel_factor_start", 0, 0, "CUBIC", "EASE_OUT"⟩,
           ⟨"bevel_factor_end", 0, 0, "CUBIC", "EASE_OUT"⟩,
           ⟨"bevel_factor_end", (F : ℚ), 1 - (i : ℚ) / (n : ℚ), "CUBIC", "EASE_OUT"⟩,
           ⟨"bevel_depth", 0, 1/10 + 3/10 * (i : ℚ), "BEZIER", "AUTO"⟩] := by
  obtain ⟨s1, hrun, hdatas, hnid⟩ := grow_thicker_run s rng curve n F d0 hn hfresh hlook
  refine ⟨s1, _, _, hrun, by simp, ?_⟩
  intro i hi
  refine ⟨_, thickerInstanceData d0 (F : ℚ) 0 (1 - (i : ℚ) * (1 / (n : ℚ)))
      (1/10 + (i : ℚ) * (3/10)) (copyMatName curve (s.nameCounter + i)),
    getElem?_map_range _ n i hi, ?_, ?_⟩
  · unfold lookupData
    rw [hdatas]
    exact lookupL_base_map_range s.datas s.nextDataId _ n i hfresh hi
  · unfold thickerInstanceData
    rw [growStepData_animation _ _ _ _ _ _ _ _ hanim]
    have h1 : 1 - (i : ℚ) * (1 / (n : ℚ)) = 1 - (i : ℚ) / (n : ℚ) := by ring
    have h2 : 1/10 + (i : ℚ) * (3/10) = 1/10 + 3/10 * (i : ℚ) := by ring
    rw [h1, h2]

theorem claim_C1_thick_to_thin_witness :
    (0 < 2 ∧ SceneFresh sampleScene ∧
      lookupData sampleScene sampleCurve.dataId = some sampleData ∧
      sampleData.animation_data = none) ∧
    (∃ s1 dups mats,
      grow_from_thicker_to_thinner sampleScene sampleRng sampleCurve 2 300 =
        .ok (s1, dups, mats) ∧
      dups.length = 2 ∧
      ∀ i : ℕ, i < 2 → ∃ dup d, dups[i]? = some dup ∧
        lookupData s1 dup.dataId = some d ∧
        d.animation_data = some
          [⟨"bevel_factor_start", 0, 0, "CUBIC", "EASE_OUT"⟩,
           ⟨"bevel_factor_end", 0, 0, "CUBIC", "EASE_OUT"⟩,
           ⟨"bevel_factor_end", ((300 : ℕ) : ℚ), 1 - (i : ℚ) / ((2 : ℕ) : ℚ), "CUBIC", "EASE_OUT"⟩,
           ⟨"bevel_depth", 0, 1/10 + 3/10 * (i : ℚ), "BEZIER", "AUTO"⟩]) :=
  ⟨⟨by decide, by decide, by decide, by decide⟩,
   claim_C1_thick_to_thin sampleScene sampleRng sampleCurve sampleData 2 300
     (by decide) (by decide) (by decide) (by decide)⟩

/-- C2: for every `n_instances = n ≥ 1` and frame count `F`, the
thin-to-thick strategy produces exactly `n` duplicates; instance `i`'s
growth is keyframed over exactly the frame sub-window
`[i·F/n, (i+1)·F/n]`, with start-fraction `i/n` and end-fraction
`(i+1)/n`; the sub-windows are contiguous, the first starts at frame 0
and the last ends at frame `F`, so the `n` sub-windows partition
`[0, F]` with no gaps or overlaps. -/
theorem claim_C2_thin_to_thick (s : Scene) (rng : ℕ → ℚ) (curve : Obj) (d0 : CurveData)
    (n F : ℕ) (hn : 0 < n) (hfresh : SceneFresh s)
    (hlook : lookupData s curve.dataId = some d0) (hanim : d0.animation_data = none) :
    ∃ s1 dups mats,
      grow_from_thinner_to_thicker s rng curve n F = .ok (s1, dups, mats) ∧
      dups.length = n ∧
      (∀ i, i < n → ∃ dup d, dups[i]? = some dup ∧
        lookupData s1 dup.dataId = some d ∧
        d.animation_data = some
          [⟨"bevel_factor_start", (i : ℚ) * F / n, (i : ℚ) / n, "LINEAR", "EASE_OUT"⟩,
           ⟨"bevel_factor_end", (i : ℚ) * F / n, (i : ℚ) / n, "LINEAR", "EASE_OUT"⟩,
           ⟨"bevel_factor_end", ((i : ℚ) + 1) * F / n, ((i : ℚ) + 1) / n, "LINEAR", "EASE_OUT"⟩,
           ⟨"bevel_depth", 0, 1/10 + 3/10 * (i : ℚ), "BEZIER", "AUTO"⟩]) ∧
      ((0 : ℚ) * F / n = 0) ∧
      (∀ i : ℕ, ((i : ℚ) + 1) * F / n = ((i + 1 : ℕ) : ℚ) * F / n) ∧
      ((((n - 1 : ℕ) : ℚ) + 1) * F / n = (F : ℚ)) := by
  obtain ⟨s1, hrun, hdatas, hnid⟩ := grow_thinner_run s rng curve n F d0 hn hfresh hlook
  have hn0 : ((n : ℚ)) ≠ 0 := Nat.cast_ne_zero.mpr (Nat.pos_iff_ne_zero.mp hn)
  refine ⟨s1, _, _, hrun, by simp, ?_, by ring, ?_, ?_⟩
  · intro i hi
    refine ⟨_, thinnerInstanceData d0 ((i : ℚ) * ((F : ℚ) / (n : ℚ))) ((F : ℚ) / (n : ℚ))
        ((i : ℚ) * (1 / (n : ℚ))) (1 / (n : ℚ)) (1/10 + (i : ℚ) * (3/10))
        (copyMatName curve (s.nameCounter + i)),
      getElem?_map_range _ n i hi, ?_, ?_⟩
    · unfold lookupData
      rw [hdatas]
      exact lookupL_base_map_range s.datas s.nextDataId _ n i hfresh hi
    · unfold thinnerInstanceData
      rw [growStepData_animation _ _ _ _ _ _ _ _ hanim]
      have h1 : (i : ℚ) * ((F : ℚ) / (n : ℚ)) = (i : ℚ) * F / n := by ring
      have h2 : (i : ℚ) * (1 / (n : ℚ)) = (i : ℚ) / n := by ring
      have h3 : (i : ℚ) * ((F : ℚ) / (n : ℚ)) + (F : ℚ) / (n : ℚ) = ((i : ℚ) + 1) * F / n := by
        ring
      have h4 : (i : ℚ) * (1 / (n : ℚ)) + 1 / (n : ℚ) = ((i : ℚ) + 1) / n := by ring
      have h5 : 1/10 + (i : ℚ) * (3/10) = 1/10 + 3/10 * (i : ℚ) := by ring
      rw [h3, h4, h1, h2, h5]
  · intro i
    push_cast
    ring
  · have hcast : (((n - 1 : ℕ) : ℚ) + 1) = (n : ℚ) := by
      have : ((n - 1 : ℕ) : ℚ) = (n : ℚ) - 1 := by
        push_cast [Nat.cast_sub hn]
        ring
      rw [this]
      ring
    rw [hcast]
    field_simp

theorem claim_C2_thin_to_thick_witness :
    (0 < 2 ∧ SceneFresh sampleScene ∧
      lookupData sampleScene sampleCurve.dataId = some sampleData ∧
      sampleData.animation_data = none) ∧
    (∃ s1 dups mats,
      grow_from_thinner_to_thicker sampleScene sampleRng sampleCurve 2 300 =
        .ok (s1, dups, mats) ∧
      dups.length = 2 ∧
      (∀ i : ℕ, i < 2 → ∃ dup d, dups[i]? = some dup ∧
        lookupData s1 dup.dataId = some d ∧
        d.animation_data = some
          [⟨"bevel_factor_start", (i : ℚ) * ((300 : ℕ) : ℚ) / ((2 : ℕ) : ℚ),
              (i : ℚ) / ((2 : ℕ) : ℚ), "LINEAR", "EASE_OUT"⟩,
           ⟨"bevel_factor_end", (i : ℚ) * ((300 : ℕ) : ℚ) / ((2 : ℕ) : ℚ),
              (i : ℚ) / ((2 : ℕ) : ℚ), "LINEAR", "EASE_OUT"⟩,
           ⟨"bevel_factor_end", ((i : ℚ) + 1) * ((300 : ℕ) : ℚ) / ((2 : ℕ) : ℚ),
              ((i : ℚ) + 1) / ((2 : ℕ) : ℚ), "LINEAR", "EASE_OUT"⟩,
           ⟨"bevel_depth", 0, 1/10 + 3/10 * (i : ℚ), "BEZIER", "AUTO"⟩]) ∧
      ((0 : ℚ) * ((300 : ℕ) : ℚ) / ((2 : ℕ) : ℚ) = 0) ∧
      (∀ i : ℕ, ((i : ℚ) + 1) * ((300 : ℕ) : ℚ) / ((2 : ℕ) : ℚ) =
        ((i + 1 : ℕ) : ℚ) * ((300 : ℕ) : ℚ) / ((2 : ℕ) : ℚ)) ∧
      ((((2 - 1 : ℕ) : ℚ) + 1) * ((300 : ℕ) : ℚ) / ((2 : ℕ) : ℚ) = ((300 : ℕ) : ℚ))) :=
  ⟨⟨by decide, by decide, by decide, by decide⟩,
   claim_C2_thin_to_thick sampleScene sampleRng sampleCurve sampleData 2 300
     (by decide) (by decide) (by decide) (by decide)⟩

theorem beq_bfs_depth : ("bevel_factor_start" == "bevel_depth") = false := by decide

theorem beq_bfe_depth : ("bevel_factor_end" == "bevel_depth") = false := by decide

theorem beq_depth_depth : ("bevel_depth" == "bevel_depth") = true := by decide

/-- C3: in both growth strategies, instance `i`'s thickness (bevel
depth) is keyframed to exactly `0.1 + 0.3·i`, as a single keyframe at
frame 0 and at no other frame; the thickness sequence is strictly
increasing with no upper bound. -/
theorem claim_C3_thickness (s : Scene) (rng : ℕ → ℚ) (curve : Obj) (d0 : CurveData)
    (n F : ℕ) (hn : 0 < n) (hfresh : SceneFresh s)
    (hlook : lookupData s curve.dataId = some d0) (hanim : d0.animation_data = none) :
    StrictMono thicknessValue ∧
    (∀ B : ℚ, ∃ j : ℕ, B < thicknessValue j) ∧
    (∃ s1 dups mats,
      grow_from_thicker_to_thinner s rng curve n F = .ok (s1, dups, mats) ∧
      ∀ i, i < n → ∃ dup d, dups[i]? = some dup ∧
        lookupData s1 dup.dataId = some d ∧
        (d.animation_data.getD []).filter (fun kf => kf.data_path == "bevel_depth") =
          [⟨"bevel_depth", 0, thicknessValue i, "BEZIER", "AUTO"⟩]) ∧
    (∃ s1 dups mats,
      grow_from_thinner_to_thicker s rng curve n F = .ok (s1, dups, mats) ∧
      ∀ i, i < n → ∃ dup d, dups[i]? = some dup ∧
        lookupData s1 dup.dataId = some d ∧
        (d.animation_data.getD []).filter (fun kf => kf.data_path == "bevel_depth") =
          [⟨"bevel_depth", 0, thicknessValue i, "BEZIER", "AUTO"⟩]) := by
  refine ⟨?_, ?_, ?_, ?_⟩
  · intro a b hab
    unfold thicknessValue
    have : (a : ℚ) < (b : ℚ) := by exact_mod_cast hab
    linarith
  · intro B
    obtain ⟨m, hm⟩ := exists_nat_gt ((10/3) * B)
    refine ⟨m, ?_⟩
    unfold thicknessValue
    nlinarith [hm]
  · obtain ⟨s1, hrun, hdatas, hnid⟩ := grow_thicker_run s rng curve n F d0 hn hfresh hlook
    refine ⟨s1, _, _, hrun, ?_⟩
    intro i hi
    refine ⟨_, thickerInstanceData d0 (F : ℚ) 0 (1 - (i : ℚ) * (1 / (n : ℚ)))
        (1/10 + (i : ℚ) * (3/10)) (copyMatName curve (s.nameCounter + i)),
      getElem?_map_range _ n i hi, ?_, ?_⟩
    · unfold lookupData
      rw [hdatas]
      exact lookupL_base_map_range s.datas s.nextDataId _ n i hfresh hi
    · unfold thickerInstanceData
      rw [growStepData_animation _ _ _ _ _ _ _ _ hanim]
      have hv : 1/10 + (i : ℚ) * (3/10) = thicknessValue i := by
        unfold thicknessValue
        ring
      rw [hv]
      simp [List.filter_cons, beq_bfs_depth, beq_bfe_depth, beq_depth_depth]
  · obtain ⟨s1, hrun, hdatas, hnid⟩ := grow_thinner_run s rng curve n F d0 hn hfresh hlook
    refine ⟨s1, _, _, hrun, ?_⟩
    intro i hi
    refine ⟨_, thinnerInstanceData d0 ((i : ℚ) * ((F : ℚ) / (n : ℚ))) ((F : ℚ) / (n : ℚ))
        ((i : ℚ) * (1 / (n : ℚ))) (1 / (n : ℚ)) (1/10 + (i : ℚ) * (3/10))
        (copyMatName curve (s.nameCounter + i)),
      getElem?_map_range _ n i hi, ?_, ?_⟩
    · unfold lookupData
      rw [hdatas]
      exact lookupL_base_map_range s.datas s.nextDataId _ n i hfresh hi
    · unfold thinnerInstanceData
      rw [growStepData_animation _ _ _ _ _ _ _ _ hanim]
      have hv : 1/10 + (i : ℚ) * (3/10) = thicknessValue i := by
        unfold thicknessValue
        ring
      rw [hv]
      simp [List.filter_cons, beq_bfs_depth, beq_bfe_depth, beq_depth_depth]

theorem claim_C3_thickness_witness :
    (0 < 2 ∧ SceneFresh sampleScene ∧
      lookupData sampleScene sampleCurve.dataId = some sampleData ∧
      sampleData.animation_data = none) ∧
    (StrictMono thicknessValue ∧
    (∀ B : ℚ, ∃ j : ℕ, B < thicknessValue j) ∧
    (∃ s1 dups mats,
      grow_from_thicker_to_thinner sampleScene sampleRng sampleCurve 2 300 =
        .ok (s1, dups, mats) ∧
      ∀ i, i < 2 → ∃ dup d, dups[i]? = some dup ∧
        lookupData s1 dup.dataId = some d ∧
        (d.animation_data.getD []).filter (fun kf => kf.data_path == "bevel_depth") =
          [⟨"bevel_depth", 0, thicknessValue i, "BEZIER", "AUTO"⟩]) ∧
    (∃ s1 dups mats,
      grow_from_thinner_to_thicker sampleScene sampleRng sampleCurve 2 300 =
        .ok (s1, dups, mats) ∧
      ∀ i, i < 2 → ∃ dup d, dups[i]? = some dup ∧
        lookupData s1 dup.dataId = some d ∧
        (d.animation_data.getD []).filter (fun kf => kf.data_path == "bevel_depth") =
          [⟨"bevel_depth", 0, thicknessValue i, "BEZIER", "AUTO"⟩])) :=
  ⟨⟨by decide, by decide, by decide, by decide⟩,
   claim_C3_thickness sampleScene sampleRng sampleCurve sampleData 2 300
     (by decide) (by decide) (by decide) (by decide)⟩

/-- C4 (counterexample): on the sample scene, the thin-to-thick strategy
with `n_instances = 2` and `n_frames = 1` (which the claim's domain
`n ≥ 1`, `F ≥ 0` admits) inserts a keyframe whose frame number is not an
integer: the first duplicate's growth-end keyframe sits at frame 1/2. -/
theorem claim_C4_counterexample :
    ∃ s1 dups mats,
      grow_from_thinner_to_thicker sampleScene sampleRng sampleCurve 2 1 = .ok (s1, dups, mats) ∧
      ∃ dup d, dups[0]? = some dup ∧ lookupData s1 dup.dataId = some d ∧
        ∃ kfs, d.animation_data = some kfs ∧
          ∃ kf ∈ kfs, ¬ ∃ z : ℤ, kf.frame = (z : ℚ) := by
  obtain ⟨s1, hrun, hdatas, hnid⟩ :=
    grow_thinner_run sampleScene sampleRng sampleCurve 2 1 sampleData (by norm_num)
      (by decide) (by decide)
  refine ⟨s1, _, _, hrun, ?_⟩
  refine ⟨_, thinnerInstanceData sampleData (((0 : ℕ) : ℚ) * (((1 : ℕ) : ℚ) / ((2 : ℕ) : ℚ)))
      (((1 : ℕ) : ℚ) / ((2 : ℕ) : ℚ)) (((0 : ℕ) : ℚ) * (1 / ((2 : ℕ) : ℚ))) (1 / ((2 : ℕ) : ℚ))
      (1/10 + ((0 : ℕ) : ℚ) * (3/10)) (copyMatName sampleCurve (sampleScene.nameCounter + 0)),
    getElem?_map_range _ 2 0 (by norm_num), ?_, ?_⟩
  · unfold lookupData
    rw [hdatas]
    exact lookupL_base_map_range sampleScene.datas sampleScene.nextDataId _ 2 0
      (by decide) (by norm_num)
  · refine ⟨_, by unfold thinnerInstanceData; rw [growStepData_animation _ _ _ _ _ _ _ _ rfl], ?_⟩
    refine ⟨⟨"bevel_factor_end",
        ((0 : ℕ) : ℚ) * (((1 : ℕ) : ℚ) / ((2 : ℕ) : ℚ)) + ((1 : ℕ) : ℚ) / ((2 : ℕ) : ℚ),
        ((0 : ℕ) : ℚ) * (1 / ((2 : ℕ) : ℚ)) + 1 / ((2 : ℕ) : ℚ), "LINEAR", "EASE_OUT"⟩,
      List.mem_cons_of_mem _ (List.mem_cons_of_mem _ (List.mem_cons_self _ _)), ?_⟩
    rintro ⟨z, hz⟩
    push_cast at hz
    norm_num at hz
    have h2 : (2 : ℚ) * (z : ℚ) = 1 := by
      rw [← hz]
      norm_num
    have h3 : (2 * z : ℤ) = 1 := by exact_mod_cast h2
    omega

/-- C4 (amended): every keyframe inserted by either growth strategy has
a non-negative rational frame number, and each growth animation's end
frame is at least its start frame. In the thick-to-thin strategy all
frame numbers are integers (0 or F); in the thin-to-thick strategy the
frame numbers `i·F/n` are integers whenever `n_instances` divides
`n_frames` (as with the orchestrator's 10 and 300), but may be
fractional otherwise. -/
theorem claim_C4_amended (s : Scene) (rng : ℕ → ℚ) (curve : Obj) (d0 : CurveData)
    (n F : ℕ) (hn : 0 < n) (hfresh : SceneFresh s)
    (hlook : lookupData s curve.dataId = some d0) (hanim : d0.animation_data = none) :
    (∃ s1 dups mats,
      grow_from_thicker_to_thinner s rng curve n F = .ok (s1, dups, mats) ∧
      ∀ i, i < n → ∃ dup d kfs, dups[i]? = some dup ∧
        lookupData s1 dup.dataId = some d ∧ d.animation_data = some kfs ∧
        (∀ kf ∈ kfs, 0 ≤ kf.frame ∧ ∃ z : ℤ, kf.frame = (z : ℚ)) ∧
        (0 : ℚ) ≤ (F : ℚ)) ∧
    (∃ s1 dups mats,
      grow_from_thinner_to_thicker s rng curve n F = .ok (s1, dups, mats) ∧
      ∀ i, i < n → ∃ dup d kfs, dups[i]? = some dup ∧
        lookupData s1 dup.dataId = some d ∧ d.animation_data = some kfs ∧
        (∀ kf ∈ kfs, 0 ≤ kf.frame) ∧
        ((i : ℚ) * F / n ≤ ((i : ℚ) + 1) * F / n) ∧
        (n ∣ F → ∀ kf ∈ kfs, ∃ z : ℤ, kf.frame = (z : ℚ))) := by
  have hn0 : ((n : ℚ)) ≠ 0 := Nat.cast_ne_zero.mpr (Nat.pos_iff_ne_zero.mp hn)
  constructor
  · obtain ⟨s1, hrun, hdatas, hnid⟩ := grow_thicker_run s rng curve n F d0 hn hfresh hlook
    refine ⟨s1, _, _, hrun, ?_⟩
    intro i hi
    refine ⟨_, thickerInstanceData d0 (F : ℚ) 0 (1 - (i : ℚ) * (1 / (n : ℚ)))
        (1/10 + (i : ℚ) * (3/10)) (copyMatName curve (s.nameCounter + i)),
      _, getElem?_map_range _ n i hi, ?_,
      by unfold thickerInstanceData; rw [growStepData_animation _ _ _ _ _ _ _ _ hanim], ?_, ?_⟩
    · unfold lookupData
      rw [hdatas]
      exact lookupL_base_map_range s.datas s.nextDataId _ n i hfresh hi
    · intro kf hkf
      simp only [List.mem_cons, List.not_mem_nil, or_false] at hkf
      rcases hkf with h | h | h | h <;> subst h
      · exact ⟨le_refl 0, 0, by norm_num⟩
      · exact ⟨le_refl 0, 0, by norm_num⟩
      · exact ⟨Nat.cast_nonneg F, (F : ℤ), by push_cast; rfl⟩
      · exact ⟨le_refl 0, 0, by norm_num⟩
    · exact Nat.cast_nonneg F
  · obtain ⟨s1, hrun, hdatas, hnid⟩ := grow_thinner_run s rng curve n F d0 hn hfresh hlook
    refine ⟨s1, _, _, hrun, ?_⟩
    intro i hi
    refine ⟨_, thinnerInstanceData d0 ((i : ℚ) * ((F : ℚ) / (n : ℚ))) ((F : ℚ) / (n : ℚ))
        ((i : ℚ) * (1 / (n : ℚ))) (1 / (n : ℚ)) (1/10 + (i : ℚ) * (3/10))
        (copyMatName curve (s.nameCounter + i)),
      _, getElem?_map_range _ n i hi, ?_,
      by unfold thinnerInstanceData; rw [growStepData_animation _ _ _ _ _ _ _ _ hanim], ?_, ?_, ?_⟩
    · unfold lookupData
      rw [hdatas]
      exact lookupL_base_map_range s.datas s.nextDataId _ n i hfresh hi
    · intro kf hkf
      simp only [List.mem_cons, List.not_mem_nil, or_false] at hkf
      rcases hkf with h | h | h | h <;> subst h
      · positivity
      · positivity
      · positivity
      · exact le_refl 0
    · gcongr
      linarith
    · rintro ⟨m, rfl⟩
      intro kf hkf
      simp only [List.mem_cons, List.not_mem_nil, or_false] at hkf
      have hfrac : ((n * m : ℕ) : ℚ) / (n : ℚ) = (m : ℚ) := by
        push_cast
        field_simp
      rcases hkf with h | h | h | h <;> subst h
      · exact ⟨(i * m : ℕ), by simp only [hfrac]; push_cast; ring⟩
      · exact ⟨(i * m : ℕ), by simp only [hfrac]; push_cast; ring⟩
      · exact ⟨((i + 1) * m : ℕ), by simp only [hfrac]; push_cast; ring⟩
      · exact ⟨0, by norm_num⟩

theorem claim_C4_amended_witness :
    (0 < 2 ∧ SceneFresh sampleScene ∧
      lookupData sampleScene sampleCurve.dataId = some sampleData ∧
      sampleData.animation_data = none) ∧
    ((∃ s1 dups mats,
      grow_from_thicker_to_thinner sampleScene sampleRng sampleCurve 2 300 =
        .ok (s1, dups, mats) ∧
      ∀ i : ℕ, i < 2 → ∃ dup d kfs, dups[i]? = some dup ∧
        lookupData s1 dup.dataId = some d ∧ d.animation_data = some kfs ∧
        (∀ kf ∈ kfs, 0 ≤ kf.frame ∧ ∃ z : ℤ, kf.frame = (z : ℚ)) ∧
        (0 : ℚ) ≤ ((300 : ℕ) : ℚ)) ∧
    (∃ s1 dups mats,
      grow_from_thinner_to_thicker sampleScene sampleRng sampleCurve 2 300 =
        .ok (s1, dups, mats) ∧
      ∀ i : ℕ, i < 2 → ∃ dup d kfs, dups[i]? = some dup ∧
        lookupData s1 dup.dataId = some d ∧ d.animation_data = some kfs ∧
        (∀ kf ∈ kfs, 0 ≤ kf.frame) ∧
        ((i : ℚ) * ((300 : ℕ) : ℚ) / ((2 : ℕ) : ℚ) ≤
          ((i : ℚ) + 1) * ((300 : ℕ) : ℚ) / ((2 : ℕ) : ℚ)) ∧
        (2 ∣ 300 → ∀ kf ∈ kfs, ∃ z : ℤ, kf.frame = (z : ℚ)))) :=
  ⟨⟨by decide, by decide, by decide, by decide⟩,
   claim_C4_amended sampleScene sampleRng sampleCurve sampleData 2 300
     (by decide) (by decide) (by decide) (by decide)⟩

theorem replaceFirstMaterial_length (mats : List Material) (mat_id : String) (m : Material) :
    (replaceFirstMaterial mats mat_id m).length = mats.length := by
  induction mats with
  | nil => rfl
  | cons a t ih =>
    unfold replaceFirstMaterial
    split <;> simp [ih]

theorem materials_get_replaceFirst (mats : List Material) (mat_id : String) (m : Material)
    (hm : m.name = mat_id) (h : (materials_get mats mat_id).isSome) :
    materials_get (replaceFirstMaterial mats mat_id m) mat_id = some m := by
  induction mats with
  | nil => simp [materials_get] at h
  | cons a t ih =>
    unfold replaceFirstMaterial
    by_cases ha : a.name = mat_id
    · rw [if_pos ha]
      simp [materials_get, List.find?, hm]
    · rw [if_neg ha]
      unfold materials_get at h ih ⊢
      rw [List.find?_cons_of_neg, ih]
      · rw [List.find?_cons_of_neg] at h
        · exact h
        · simpa using ha
      · simpa using ha

theorem materials_get_append_single (mats : List Material) (mat_id : String) (m : Material)
    (hm : m.name = mat_id) (h : materials_get mats mat_id = none) :
    materials_get (mats ++ [m]) mat_id = some m := by
  unfold materials_get at h ⊢
  rw [List.find?_append, h]
  simp [List.find?, hm]

theorem materials_get_updateReg (mats : List Material) (mat_id : String) (m : Material)
    (hm : m.name = mat_id) :
    materials_get
      (if (materials_get mats mat_id).isSome
       then replaceFirstMaterial mats mat_id m else mats ++ [m]) mat_id = some m := by
  by_cases h : (materials_get mats mat_id).isSome
  · rw [if_pos h]
    exact materials_get_replaceFirst _ _ _ hm h
  · rw [if_neg h]
    exact materials_get_append_single _ _ _ hm (Option.not_isSome_iff_eq_none.mp h)

/-- After any `create_material` call, the registry holds a material under
the requested identifier. -/
theorem materials_get_create (mats : List Material) (mat_id k : String) (c : Color) (e g : ℚ) :
    ∃ m0, materials_get (create_material mats mat_id k c e g).1 mat_id = some m0 := by
  unfold create_material
  cases hs : shaderNodeFor k c e g with
  | none => exact ⟨_, materials_get_updateReg mats mat_id _ rfl⟩
  | some sh => exact ⟨_, materials_get_updateReg mats mat_id _ rfl⟩

theorem create_material_emission (mats : List Material) (mat_id : String) (c : Color) (e g : ℚ) :
    create_material mats mat_id "emission" c e g =
      (if (materials_get mats mat_id).isSome
       then replaceFirstMaterial mats mat_id
         ⟨mat_id, true, [outputNode, ⟨"ShaderNodeEmission", "Emission", some c.rgba, some e⟩],
          [⟨"Emission", "Material Output"⟩]⟩
       else mats ++
         [⟨mat_id, true, [outputNode, ⟨"ShaderNodeEmission", "Emission", some c.rgba, some e⟩],
           [⟨"Emission", "Material Output"⟩]⟩],
       some ⟨mat_id, true, [outputNode, ⟨"ShaderNodeEmission", "Emission", some c.rgba, some e⟩],
         [⟨"Emission", "Material Output"⟩]⟩) := rfl

theorem create_material_glossy (mats : List Material) (mat_id : String) (c : Color) (e g : ℚ) :
    create_material mats mat_id "glossy" c e g =
      (if (materials_get mats mat_id).isSome
       then replaceFirstMaterial mats mat_id
         ⟨mat_id, true, [outputNode, ⟨"ShaderNodeBsdfGlossy", "Glossy BSDF", some c.rgba, some g⟩],
          [⟨"Glossy BSDF", "Material Output"⟩]⟩
       else mats ++
         [⟨mat_id, true, [outputNode, ⟨"ShaderNodeBsdfGlossy", "Glossy BSDF", some c.rgba, some g⟩],
           [⟨"Glossy BSDF", "Material Output"⟩]⟩],
       some ⟨mat_id, true,
         [outputNode, ⟨"ShaderNodeBsdfGlossy", "Glossy BSDF", some c.rgba, some g⟩],
         [⟨"Glossy BSDF", "Material Output"⟩]⟩) := rfl

/-- C5: the Material Builder is idempotent in the identifier: two
`create_material` calls with the same `mat_id` (any valid shader kinds)
leave the registry with an entry under `mat_id` whose node graph holds
exactly one shader node wired to exactly one output node; the second
call replaces the prior graph instead of accumulating nodes, and adds no
second material to the registry. -/
theorem claim_C5_material_idempotent (mats : List Material) (mat_id : String)
    (k1 k2 : String) (c1 c2 : Color) (e1 e2 g1 g2 : ℚ)
    (_hk1 : k1 = "diffuse" ∨ k1 = "emission" ∨ k1 = "glossy")
    (hk2 : k2 = "diffuse" ∨ k2 = "emission" ∨ k2 = "glossy") :
    ∃ m : Material,
      (create_material (create_material mats mat_id k1 c1 e1 g1).1 mat_id k2 c2 e2 g2).2 =
        some m ∧
      materials_get
        (create_material (create_material mats mat_id k1 c1 e1 g1).1 mat_id k2 c2 e2 g2).1
        mat_id = some m ∧
      (create_material (create_material mats mat_id k1 c1 e1 g1).1 mat_id k2 c2 e2 g2).1.length =
        (create_material mats mat_id k1 c1 e1 g1).1.length ∧
      m.nodes.length = 2 ∧
      (m.nodes.filter (fun nd => nd.ntype == "ShaderNodeOutputMaterial")).length = 1 ∧
      (m.nodes.filter (fun nd => nd.ntype != "ShaderNodeOutputMaterial")).length = 1 ∧
      ∃ shader, m.nodes = [outputNode, shader] ∧
        m.links = [⟨shader.name, "Material Output"⟩] := by
  obtain ⟨m0, hm0⟩ := materials_get_create mats mat_id k1 c1 e1 g1
  have hpres : (materials_get (create_material mats mat_id k1 c1 e1 g1).1 mat_id).isSome := by
    rw [hm0]
    rfl
  rcases hk2 with rfl | rfl | rfl
  · refine ⟨diffuseMaterial mat_id c2, ?_, ?_, ?_, by simp [diffuseMaterial, outputNode],
      by simp [diffuseMaterial, outputNode], by simp [diffuseMaterial, outputNode],
      ⟨"ShaderNodeBsdfDiffuse", "Diffuse BSDF", some c2.rgba, none⟩, rfl, rfl⟩
    · rw [create_material_diffuse]
    · rw [create_material_diffuse]
      exact materials_get_updateReg _ _ _ rfl
    · rw [create_material_diffuse]
      simp only [if_pos hpres]
      exact replaceFirstMaterial_length _ _ _
  · refine ⟨⟨mat_id, true,
        [outputNode, ⟨"ShaderNodeEmission", "Emission", some c2.rgba, some e2⟩],
        [⟨"Emission", "Material Output"⟩]⟩, ?_, ?_, ?_, by simp [outputNode],
      by simp [outputNode], by simp [outputNode],
      ⟨"ShaderNodeEmission", "Emission", some c2.rgba, some e2⟩, rfl, rfl⟩
    · rw [create_material_emission]
    · rw [create_material_emission]
      exact materials_get_updateReg _ _ _ rfl
    · rw [create_material_emission]
      simp only [if_pos hpres]
      exact replaceFirstMaterial_length _ _ _
  · refine ⟨⟨mat_id, true,
        [outputNode, ⟨"ShaderNodeBsdfGlossy", "Glossy BSDF", some c2.rgba, some g2⟩],
        [⟨"Glossy BSDF", "Material Output"⟩]⟩, ?_, ?_, ?_, by simp [outputNode],
      by simp [outputNode], by simp [outputNode],
      ⟨"ShaderNodeBsdfGlossy", "Glossy BSDF", some c2.rgba, some g2⟩, rfl, rfl⟩
    · rw [create_material_glossy]
    · rw [create_material_glossy]
      exact materials_get_updateReg _ _ _ rfl
    · rw [create_material_glossy]
      simp only [if_pos hpres]
      exact replaceFirstMaterial_length _ _ _

theorem claim_C5_material_idempotent_witness :
    (("diffuse" : String) = "diffuse" ∨ ("diffuse" : String) = "emission" ∨
      ("diffuse" : String) = "glossy") ∧
    (("glossy" : String) = "diffuse" ∨ ("glossy" : String) = "emission" ∨
      ("glossy" : String) = "glossy") ∧
    (∃ m : Material,
      (create_material (create_material [] "mat" "diffuse" ⟨1, 0, 0⟩ 1 (1/10)).1
          "mat" "glossy" ⟨0, 1, 0⟩ 1 (1/10)).2 = some m ∧
      materials_get
        (create_material (create_material [] "mat" "diffuse" ⟨1, 0, 0⟩ 1 (1/10)).1
          "mat" "glossy" ⟨0, 1, 0⟩ 1 (1/10)).1 "mat" = some m ∧
      (create_material (create_material [] "mat" "diffuse" ⟨1, 0, 0⟩ 1 (1/10)).1
          "mat" "glossy" ⟨0, 1, 0⟩ 1 (1/10)).1.length =
        (create_material [] "mat" "diffuse" ⟨1, 0, 0⟩ 1 (1/10)).1.length ∧
      m.nodes.length = 2 ∧
      (m.nodes.filter (fun nd => nd.ntype == "ShaderNodeOutputMaterial")).length = 1 ∧
      (m.nodes.filter (fun nd => nd.ntype != "ShaderNodeOutputMaterial")).length = 1 ∧
      ∃ shader, m.nodes = [outputNode, shader] ∧
        m.links = [⟨shader.name, "Material Output"⟩]) :=
  ⟨Or.inl rfl, Or.inr (Or.inr rfl),
   claim_C5_material_idempotent [] "mat" "diffuse" "glossy" ⟨1, 0, 0⟩ ⟨0, 1, 0⟩ 1 1 (1/10) (1/10)
     (Or.inl rfl) (Or.inr (Or.inr rfl))⟩

theorem copy_obj_eq_opt (s : Scene) (obj : Obj) (cn : Option String) (d0 : CurveData)
    (hlook : lookupData s obj.dataId = some d0) :
    copy_obj s obj cn =
      (add_object_to_collection
        { s with datas := s.datas ++ [(s.nextDataId, d0)],
                 objects := s.objects ++ [⟨copyName obj s.nameCounter, s.nextDataId, none⟩],
                 nextDataId := s.nextDataId + 1,
                 nameCounter := s.nameCounter + 1 }
        (copyName obj s.nameCounter) (cn.getD "Scene Collection"),
       ⟨copyName obj s.nameCounter, s.nextDataId, none⟩) := by
  cases cn with
  | none =>
    unfold copy_obj
    rw [hlook]
    rfl
  | some c =>
    unfold copy_obj
    rw [hlook]
    rfl

theorem lookupL_mem (l : List (ℕ × CurveData)) (i : ℕ) (d : CurveData)
    (h : lookupL l i = some d) : (i, d) ∈ l := by
  unfold lookupL at h
  cases hf : l.find? (fun p => p.1 == i) with
  | none =>
    rw [hf] at h
    simp at h
  | some q =>
    rw [hf] at h
    have hq := List.find?_some hf
    have hmem := List.mem_of_find?_eq_some hf
    obtain ⟨q1, q2⟩ := q
    simp at h
    simp only [beq_iff_eq] at hq
    subst hq
    subst h
    exact hmem

/-- C6: the Object Duplicator returns a new object holding a distinct
deep copy of the source's curve data (never shared with the source, any
existing data block, or later siblings) and no animation data; the
source object and its data are unchanged, and mutating the duplicate's
data block never alters the source's. -/
theorem claim_C6_duplicator (s : Scene) (obj : Obj) (cn : Option String) (d0 : CurveData)
    (hfresh : SceneFresh s) (hlook : lookupData s obj.dataId = some d0) :
    ∃ s1 cpy,
      copy_obj s obj cn = (s1, cpy) ∧
      cpy.animation_data = none ∧
      cpy.dataId ∉ s.datas.map Prod.fst ∧
      cpy.dataId ≠ obj.dataId ∧
      lookupData s1 cpy.dataId = some d0 ∧
      lookupData s1 obj.dataId = some d0 ∧
      (∀ g : CurveData → CurveData,
        lookupData (mapData s1 cpy.dataId g) obj.dataId = some d0) ∧
      (obj ∈ s.objects → obj ∈ s1.objects) ∧
      (∀ cn2 : Option String, (copy_obj s1 obj cn2).2.dataId ≠ cpy.dataId) := by
  have hne : ∀ p ∈ s.datas, p.1 ≠ s.nextDataId := fun p hp => Nat.ne_of_lt (hfresh p hp)
  have hobjlt : obj.dataId < s.nextDataId := hfresh _ (lookupL_mem s.datas obj.dataId d0 hlook)
  refine ⟨_, _, copy_obj_eq_opt s obj cn d0 hlook, rfl, ?_, ?_, ?_, ?_, ?_, ?_, ?_⟩
  · intro hmem
    simp only [List.mem_map] at hmem
    obtain ⟨p, hp, hp1⟩ := hmem
    exact hne p hp hp1
  · exact (Nat.ne_of_lt hobjlt).symm
  · unfold lookupData
    simp only [add_object_datas]
    exact lookupL_append_fresh _ _ _ hne
  · unfold lookupData
    simp only [add_object_datas]
    exact lookupL_append_left _ _ _ _ hlook
  · intro g
    unfold lookupData mapData
    simp only [add_object_datas]
    rw [map_update_append_single _ _ _ g hne]
    exact lookupL_append_left _ _ _ _ hlook
  · intro hmem
    simp only [add_object_objects]
    exact List.mem_append_left _ hmem
  · intro cn2
    have h2 : ∀ s2 : Scene, (copy_obj s2 obj cn2).2.dataId = s2.nextDataId := by
      intro s2
      cases cn2 <;> rfl
    rw [h2]
    simp only [add_object_nextDataId]
    omega

theorem claim_C6_duplicator_witness :
    (SceneFresh sampleScene ∧
      lookupData sampleScene sampleCurve.dataId = some sampleData) ∧
    (∃ s1 cpy,
      copy_obj sampleScene sampleCurve (some "curve_cpy_thicker_to_thinner_collection") =
        (s1, cpy) ∧
      cpy.animation_data = none ∧
      cpy.dataId ∉ sampleScene.datas.map Prod.fst ∧
      cpy.dataId ≠ sampleCurve.dataId ∧
      lookupData s1 cpy.dataId = some sampleData ∧
      lookupData s1 sampleCurve.dataId = some sampleData ∧
      (∀ g : CurveData → CurveData,
        lookupData (mapData s1 cpy.dataId g) sampleCurve.dataId = some sampleData) ∧
      (sampleCurve ∈ sampleScene.objects → sampleCurve ∈ s1.objects) ∧
      (∀ cn2 : Option String,
        (copy_obj s1 sampleCurve cn2).2.dataId ≠ cpy.dataId)) :=
  ⟨⟨by decide, by decide⟩,
   claim_C6_duplicator sampleScene sampleCurve
     (some "curve_cpy_thicker_to_thinner_collection") sampleData (by decide) (by decide)⟩

/-- Full unrolling of the palette generator: five colors, drawn at
consecutive random-stream positions, with hues
`H, H-O, H+O, H-2O, H+2O` (each divided by 360) in that order. -/
theorem generate_5_eq (rng : ℕ → ℚ) (k : ℕ) :
    generate_5_random_colors_that_fit rng k =
      ([Color.fromHsv ((pyInt (rng k * 360) : ℚ) / 360) (rng (k + 2)) (rng (k + 3)),
        Color.fromHsv (((pyInt (rng k * 360) - pyInt (rng (k + 1) * 180) : ℤ) : ℚ) / 360)
          (rng (k + 4)) (rng (k + 5)),
        Color.fromHsv (((pyInt (rng k * 360) + pyInt (rng (k + 1) * 180) : ℤ) : ℚ) / 360)
          (rng (k + 6)) (rng (k + 7)),
        Color.fromHsv (((pyInt (rng k * 360) - 2 * pyInt (rng (k + 1) * 180) : ℤ) : ℚ) / 360)
          (rng (k + 8)) (rng (k + 9)),
        Color.fromHsv (((pyInt (rng k * 360) + 2 * pyInt (rng (k + 1) * 180) : ℤ) : ℚ) / 360)
          (rng (k + 10)) (rng (k + 11))], k + 12) := rfl

/-- C7: the Color Palette Generator always returns exactly 5 colors, and
for a random source yielding hue `H = int(r₀·360)` and offset
`O = int(r₁·180)`, the five hue values used are `H, H-O, H+O, H-2O,
H+2O`, in that order. -/
theorem claim_C7_palette (rng : ℕ → ℚ) (k : ℕ) :
    ((generate_5_random_colors_that_fit rng k).1).length = 5 ∧
    (generate_5_random_colors_that_fit rng k).1 =
      [Color.fromHsv ((pyInt (rng k * 360) : ℚ) / 360) (rng (k + 2)) (rng (k + 3)),
       Color.fromHsv (((pyInt (rng k * 360) - pyInt (rng (k + 1) * 180) : ℤ) : ℚ) / 360)
         (rng (k + 4)) (rng (k + 5)),
       Color.fromHsv (((pyInt (rng k * 360) + pyInt (rng (k + 1) * 180) : ℤ) : ℚ) / 360)
         (rng (k + 6)) (rng (k + 7)),
       Color.fromHsv (((pyInt (rng k * 360) - 2 * pyInt (rng (k + 1) * 180) : ℤ) : ℚ) / 360)
         (rng (k + 8)) (rng (k + 9)),
       Color.fromHsv (((pyInt (rng k * 360) + 2 * pyInt (rng (k + 1) * 180) : ℤ) : ℚ) / 360)
         (rng (k + 10)) (rng (k + 11))] := by
  rw [generate_5_eq]
  exact ⟨rfl, rfl⟩

theorem lookupL_map_shape (l : List (ℕ × CurveData)) (i : ℕ) (opt : String) :
    lookupL (l.map (fun p => if p.1 = i then (p.1, p.2.shape_fcurves opt) else p)) i =
      (lookupL l i).map (fun d => d.shape_fcurves opt) := by
  induction l with
  | nil => rfl
  | cons a t ih =>
    by_cases ha : a.1 = i
    · simp only [List.map_cons, if_pos ha]
      unfold lookupL
      rw [List.find?_cons_of_pos _ (by simpa using ha),
        List.find?_cons_of_pos _ (by simpa using ha)]
      rfl
    · simp only [List.map_cons, if_neg ha]
      unfold lookupL at ih ⊢
      rw [List.find?_cons_of_neg _ (by simpa using ha),
        List.find?_cons_of_neg _ (by simpa using ha)]
      exact ih

/-- C8: Keyframe Shaping fails (the model returns `none` for the
`AttributeError`) when the object's data has no animation data; when
animation data exists it sets every keyframe of every animated channel
to the given interpolation option and to ease-out easing. -/
theorem claim_C8_fcurve_shaping (s : Scene) (o : Obj) (opt : String) :
    (((lookupData s o.dataId).getD defaultCurveData).animation_data = none →
      set_animation_fcurve s o opt = none) ∧
    (∀ kfs, ((lookupData s o.dataId).getD defaultCurveData).animation_data = some kfs →
      ∃ s1, set_animation_fcurve s o opt = some s1 ∧
        ((lookupData s1 o.dataId).getD defaultCurveData).animation_data =
          some (kfs.map (fun kf =>
            ⟨kf.data_path, kf.frame, kf.value, opt, "EASE_OUT"⟩))) := by
  constructor
  · intro h
    unfold set_animation_fcurve
    rw [h]
  · intro kfs h
    refine ⟨mapData s o.dataId (fun d => d.shape_fcurves opt), ?_, ?_⟩
    · unfold set_animation_fcurve
      rw [h]
    · unfold lookupData mapData
      cases hl : lookupL s.datas o.dataId with
      | none =>
        unfold lookupData at h
        rw [hl] at h
        simp [defaultCurveData] at h
      | some d =>
        rw [lookupL_map_shape, hl]
        unfold lookupData at h
        rw [hl] at h
        simp only [Option.getD_some] at h
        simp [CurveData.shape_fcurves, h, shapeKeyframe]

theorem claim_C8_fcurve_shaping_witness :
    ((((lookupData sampleScene sampleCurve.dataId).getD defaultCurveData).animation_data =
        none ∧
      set_animation_fcurve sampleScene sampleCurve "CUBIC" = none)) ∧
    (((lookupData sampleAnimatedScene sampleCurve.dataId).getD
        defaultCurveData).animation_data = some [sampleKf] ∧
      ∃ s1, set_animation_fcurve sampleAnimatedScene sampleCurve "CUBIC" = some s1 ∧
        ((lookupData s1 sampleCurve.dataId).getD defaultCurveData).animation_data =
          some ([sampleKf].map (fun kf =>
            ⟨kf.data_path, kf.frame, kf.value, "CUBIC", "EASE_OUT"⟩))) :=
  ⟨⟨by decide, (claim_C8_fcurve_shaping sampleScene sampleCurve "CUBIC").1 (by decide)⟩,
   ⟨by decide,
    (claim_C8_fcurve_shaping sampleAnimatedScene sampleCurve "CUBIC").2 [sampleKf]
      (by decide)⟩⟩

/-- C10: in both growth strategies instance `i`'s material uses the
palette color at index `i mod 2`, so only the first two of the five
generated palette colors are ever assigned; each duplicate has exactly
one material appended to its data block. -/
theorem claim_C10_material_colors (s : Scene) (rng : ℕ → ℚ) (curve : Obj) (d0 : CurveData)
    (n F : ℕ) (hn : 0 < n) (hfresh : SceneFresh s)
    (hlook : lookupData s curve.dataId = some d0) :
    (generate_5_random_colors_that_fit rng 0).1.length = 5 ∧
    (∃ s1 dups mats,
      grow_from_thicker_to_thinner s rng curve n F = .ok (s1, dups, mats) ∧
      dups.length = n ∧ mats.length = n ∧
      ∀ i, i < n → (i % 2 = 0 ∨ i % 2 = 1) ∧
        mats[i]? = some (diffuseMaterial (copyMatName curve (s.nameCounter + i))
          ((generate_5_random_colors_that_fit rng 0).1.getD (i % 2) ⟨0, 0, 0⟩)) ∧
        ∃ dup d, dups[i]? = some dup ∧ lookupData s1 dup.dataId = some d ∧
          d.materials = d0.materials ++ [copyMatName curve (s.nameCounter + i)]) ∧
    (∃ s1 dups mats,
      grow_from_thinner_to_thicker s rng curve n F = .ok (s1, dups, mats) ∧
      dups.length = n ∧ mats.length = n ∧
      ∀ i, i < n → (i % 2 = 0 ∨ i % 2 = 1) ∧
        mats[i]? = some (diffuseMaterial (copyMatName curve (s.nameCounter + i))
          ((generate_5_random_colors_that_fit rng 0).1.getD (i % 2) ⟨0, 0, 0⟩)) ∧
        ∃ dup d, dups[i]? = some dup ∧ lookupData s1 dup.dataId = some d ∧
          d.materials = d0.materials ++ [copyMatName curve (s.nameCounter + i)]) := by
  refine ⟨by rw [generate_5_eq]; rfl, ?_, ?_⟩
  · obtain ⟨s1, hrun, hdatas, hnid⟩ := grow_thicker_run s rng curve n F d0 hn hfresh hlook
    refine ⟨s1, _, _, hrun, by simp, by simp, ?_⟩
    intro i hi
    refine ⟨Nat.mod_two_eq_zero_or_one i, getElem?_map_range _ n i hi, _,
      thickerInstanceData d0 (F : ℚ) 0 (1 - (i : ℚ) * (1 / (n : ℚ)))
        (1/10 + (i : ℚ) * (3/10)) (copyMatName curve (s.nameCounter + i)),
      getElem?_map_range _ n i hi, ?_, ?_⟩
    · unfold lookupData
      rw [hdatas]
      exact lookupL_base_map_range s.datas s.nextDataId _ n i hfresh hi
    · unfold thickerInstanceData
      exact growStepData_materials _ _ _ _ _ _ _ _
  · obtain ⟨s1, hrun, hdatas, hnid⟩ := grow_thinner_run s rng curve n F d0 hn hfresh hlook
    refine ⟨s1, _, _, hrun, by simp, by simp, ?_⟩
    intro i hi
    refine ⟨Nat.mod_two_eq_zero_or_one i, getElem?_map_range _ n i hi, _,
      thinnerInstanceData d0 ((i : ℚ) * ((F : ℚ) / (n : ℚ))) ((F : ℚ) / (n : ℚ))
        ((i : ℚ) * (1 / (n : ℚ))) (1 / (n : ℚ)) (1/10 + (i : ℚ) * (3/10))
        (copyMatName curve (s.nameCounter + i)),
      getElem?_map_range _ n i hi, ?_, ?_⟩
    · unfold lookupData
      rw [hdatas]
      exact lookupL_base_map_range s.datas s.nextDataId _ n i hfresh hi
    · unfold thinnerInstanceData
      exact growStepData_materials _ _ _ _ _ _ _ _

theorem claim_C10_material_colors_witness :
    (0 < 2 ∧ SceneFresh sampleScene ∧
      lookupData sampleScene sampleCurve.dataId = some sampleData) ∧
    ((generate_5_random_colors_that_fit sampleRng 0).1.length = 5 ∧
    (∃ s1 dups mats,
      grow_from_thicker_to_thinner sampleScene sampleRng sampleCurve 2 300 =
        .ok (s1, dups, mats) ∧
      dups.length = 2 ∧ mats.length = 2 ∧
      ∀ i, i < 2 → (i % 2 = 0 ∨ i % 2 = 1) ∧
        mats[i]? = some (diffuseMaterial (copyMatName sampleCurve (sampleScene.nameCounter + i))
          ((generate_5_random_colors_that_fit sampleRng 0).1.getD (i % 2) ⟨0, 0, 0⟩)) ∧
        ∃ dup d, dups[i]? = some dup ∧ lookupData s1 dup.dataId = some d ∧
          d.materials = sampleData.materials ++
            [copyMatName sampleCurve (sampleScene.nameCounter + i)]) ∧
    (∃ s1 dups mats,
      grow_from_thinner_to_thicker sampleScene sampleRng sampleCurve 2 300 =
        .ok (s1, dups, mats) ∧
      dups.length = 2 ∧ mats.length = 2 ∧
      ∀ i, i < 2 → (i % 2 = 0 ∨ i % 2 = 1) ∧
        mats[i]? = some (diffuseMaterial (copyMatName sampleCurve (sampleScene.nameCounter + i))
          ((generate_5_random_colors_that_fit sampleRng 0).1.getD (i % 2) ⟨0, 0, 0⟩)) ∧
        ∃ dup d, dups[i]? = some dup ∧ lookupData s1 dup.dataId = some d ∧
          d.materials = sampleData.materials ++
            [copyMatName sampleCurve (sampleScene.nameCounter + i)])) :=
  ⟨⟨by decide, by decide, by decide⟩,
   claim_C10_material_colors sampleScene sampleRng sampleCurve sampleData 2 300
     (by decide) (by decide) (by decide)⟩

/-- C9: invoking either growth strategy with `n_instances = 0` raises a
division-by-zero error that propagates uncaught; in the model the run
aborts with no updated scene returned — no duplicate, keyframe or
material is produced (the check sits where Python evaluates
`1.0 / n_instances` resp. `n_frames / n_instances`, before any scene
mutation or palette draw). -/
theorem claim_C9_zero_instances (s : Scene) (rng : ℕ → ℚ) (curve : Obj) (F : ℕ) :
    grow_from_thicker_to_thinner s rng curve 0 F =
      .error "ZeroDivisionError: division by zero" ∧
    grow_from_thinner_to_thicker s rng curve 0 F =
      .error "ZeroDivisionError: division by zero" :=
  ⟨rfl, rfl⟩

end CollageSplines
